import Mathlib

/-!
Verification of the template-generation core of the pdf-to-presentation
repository, shallowly embedded from src/server/src/services/template.service.ts
and the job-assembly route in src/unnamed/part_005.

Strings are modelled as Lean strings; the JavaScript runtime semantics used by
the source (string interpolation, truthiness of numbers and strings, global
single-character regex replacement) is embedded explicitly.  Characters that
the token rules of this development cannot write literally are produced with
Char.ofNat: 38 is the ampersand, 60 the less-than sign, 62 the greater-than
sign, 34 the double quote, 39 the apostrophe.
-/

namespace PdfPresentation

/-- Decimal digit character for a value below ten, as produced by the
JavaScript number-to-string conversion. -/
def digitChar (n : Nat) : Char := Char.ofNat (48 + n)

/-- Fuel-indexed decimal expansion: with fuel above n it yields the digits of
n, most significant first.  The fuel only makes the recursion structural. -/
def natDigitsF : Nat → Nat → List Char
  | 0, _ => []
  | fuel + 1, n =>
    if n < 10 then [digitChar n]
    else natDigitsF fuel (n / 10) ++ [digitChar (n % 10)]

/-- Decimal digit list of a natural number, most significant digit first,
mirroring the JavaScript rendering of a nonnegative integer; n + 1 units of
fuel always suffice since the value shrinks at every division by ten. -/
def natDigits (n : Nat) : List Char := natDigitsF (n + 1) n

/-- Decimal string of a natural number. -/
def natStr (n : Nat) : String := ⟨natDigits n⟩

/-- Decimal string of an integer, as JavaScript renders integral numbers. -/
def intStr (i : Int) : String :=
  if i < 0 then "-" ++ natStr i.natAbs else natStr i.natAbs

/-- JavaScript boolean-to-string conversion used by template interpolation. -/
def jsBool (b : Bool) : String := if b then "true" else "false"

/-- Global single-character replacement: the semantics of the JavaScript
text.replace(/c/g, rep) calls in escapeHtml of template.service.ts. -/
def replaceChar (c : Char) (rep : List Char) : List Char → List Char
  | [] => []
  | x :: xs => (if x = c then rep else [x]) ++ replaceChar c rep xs

/-- The ampersand character. -/
def ampC : Char := Char.ofNat 38

/-- The less-than character. -/
def ltC : Char := Char.ofNat 60

/-- The greater-than character. -/
def gtC : Char := Char.ofNat 62

/-- The double-quote character. -/
def quotC : Char := Char.ofNat 34

/-- The apostrophe character. -/
def aposC : Char := Char.ofNat 39

/-- Embedding of escapeHtml from template.service.ts lines 1342 to 1349:
five chained global replacements, ampersand first, then less-than,
greater-than, double quote and apostrophe. -/
def escapeHtmlData (s : List Char) : List Char :=
  replaceChar aposC ("&#039;".data)
    (replaceChar quotC ("&quot;".data)
      (replaceChar gtC ("&gt;".data)
        (replaceChar ltC ("&lt;".data)
          (replaceChar ampC ("&amp;".data) s))))

/-- String-level escapeHtml. -/
def escapeHtml (s : String) : String := ⟨escapeHtmlData s.data⟩

/-- Specification-side character table for HTML escaping: each of the five
special characters maps to its entity, all other characters are unchanged.
This definition follows the words of the specification, to be compared with
the chained-replacement implementation escapeHtmlData. -/
def escChar (c : Char) : List Char :=
  if c = ampC then ("&amp;".data)
  else if c = ltC then ("&lt;".data)
  else if c = gtC then ("&gt;".data)
  else if c = quotC then ("&quot;".data)
  else if c = aposC then ("&#039;".data)
  else [c]

/-- Verbatim text of the presentation index.html template (template.service.ts lines 114 to 410) -/
def presH0 : String := "<!DOCTYPE html>\n<html lang=\"en\">\n<head>\n  <meta charset=\"UTF-8\">\n  <meta name=\"viewport\" content=\"width=device-width, initial-scale=1.0\">\n  <title>"

/-- Verbatim text of the presentation index.html template (template.service.ts lines 114 to 410) -/
def presH1 : String := "</title>\n  <link rel=\"stylesheet\" href=\"assets/styles.css\">\n  <link rel=\"stylesheet\" href=\"assets/template.css\">\n  <style>\n    * \x7b margin: 0; padding: 0; box-sizing: border-box; \x7d\n    \n    body \x7b\n      font-family: system-ui, -apple-system, BlinkMacSystemFont, \x27Segoe UI\x27, Roboto, sans-serif;\n      background: linear-gradient(135deg, #1a1a2e 0%, #16213e 100%);\n      min-height: 100vh;\n      color: #fff;\n      overflow: hidden;\n    \x7d\n    \n    .presentation-container \x7b\n      width: 100vw;\n      height: 100vh;\n      display: flex;\n      flex-direction: column;\n    \x7d\n    \n    .slides-wrapper \x7b\n      flex: 1;\n      position: relative;\n      overflow: hidden;\n    \x7d\n    \n    .slide \x7b\n      position: absolute;\n      top: 0;\n      left: 0;\n      width: 100%;\n      height: 100%;\n      display: flex;\n      align-items: center;\n      justify-content: center;\n      opacity: 0;\n      pointer-events: none;\n      transition: opacity 0.5s ease, transform 0.5s ease;\n      transform: translateX(50px);\n    \x7d\n    \n    .slide.active \x7b\n      opacity: 1;\n      pointer-events: all;\n      transform: translateX(0);\n    \x7d\n    \n    .slide.prev \x7b\n      transform: translateX(-50px);\n    \x7d\n    \n    .slide-content \x7b\n      position: relative;\n      background: #fff;\n      border-radius: 16px;\n      box-shadow: 0 25px 80px rgba(0,0,0,0.4);\n      max-width: 90vw;\n      max-height: 85vh;\n      overflow: auto;\n      color: #333;\n    \x7d\n    \n    .slide-content .pdf-page \x7b\n      padding: 40px;\n    \x7d\n    \n    .hotspot-link \x7b\n      position: absolute;\n      background: rgba(59, 130, 246, 0.1);\n      border: 2px solid rgba(59, 130, 246, 0.5);\n      border-radius: 4px;\n      cursor: pointer;\n      transition: all 0.3s ease;\n    \x7d\n    \n    .hotspot-link:hover \x7b\n      background: rgba(59, 130, 246, 0.3);\n      border-color: rgba(59, 130, 246, 0.8);\n    \x7d\n    \n    .navigation \x7b\n      display: flex;\n      justify-content: center;\n      align-items: center;\n      gap: 24px;\n      padding: 20px;\n      background: rgba(0,0,0,0.3);\n      backdrop-filter: blur(10px);\n    \x7d\n    \n    .nav-btn \x7b\n      width: 50px;\n      height: 50px;\n      border-radius: 50%;\n      border: none;\n      background: rgba(255,255,255,0.1);\n      color: #fff;\n      cursor: pointer;\n      display: flex;\n      align-items: center;\n      justify-content: center;\n      transition: all 0.3s ease;\n      font-size: 20px;\n    \x7d\n    \n    .nav-btn:hover:not(:disabled) \x7b\n      background: rgba(255,255,255,0.2);\n      transform: scale(1.1);\n    \x7d\n    \n    .nav-btn:disabled \x7b\n      opacity: 0.3;\n      cursor: not-allowed;\n    \x7d\n    \n    .progress-indicator \x7b\n      display: flex;\n      gap: 8px;\n    \x7d\n    \n    .progress-dot \x7b\n      width: 12px;\n      height: 12px;\n      border-radius: 50%;\n      background: rgba(255,255,255,0.3);\n      cursor: pointer;\n      transition: all 0.3s ease;\n    \x7d\n    \n    .progress-dot.active \x7b\n      background: #3b82f6;\n      transform: scale(1.2);\n    \x7d\n    \n    .progress-dot:hover \x7b\n      background: rgba(255,255,255,0.5);\n    \x7d\n    \n    .slide-counter \x7b\n      font-size: 14px;\n      opacity: 0.7;\n    \x7d\n    \n    /* Lead Gen Overlay */\n    .lead-gen-overlay \x7b\n      position: fixed;\n      top: 0;\n      left: 0;\n      width: 100%;\n      height: 100%;\n      background: rgba(0,0,0,0.9);\n      backdrop-filter: blur(20px);\n      display: none;\n      align-items: center;\n      justify-content: center;\n      z-index: 1000;\n    \x7d\n    \n    .lead-gen-overlay.active \x7b\n      display: flex;\n    \x7d\n    \n    .lead-gen-form \x7b\n      background: linear-gradient(135deg, #1e293b 0%, #0f172a 100%);\n      border-radius: 24px;\n      padding: 48px;\n      max-width: 480px;\n      width: 90%;\n      box-shadow: 0 25px 80px rgba(0,0,0,0.5);\n      border: 1px solid rgba(255,255,255,0.1);\n    \x7d\n    \n    .lead-gen-form h2 \x7b\n      font-size: 28px;\n      margin-bottom: 8px;\n      background: linear-gradient(90deg, #3b82f6, #8b5cf6);\n      -webkit-background-clip: text;\n      -webkit-text-fill-color: transparent;\n    \x7d\n    \n    .lead-gen-form p \x7b\n      color: rgba(255,255,255,0.6);\n      margin-bottom: 32px;\n    \x7d\n    \n    .form-group \x7b\n      margin-bottom: 20px;\n    \x7d\n    \n    .form-group input \x7b\n      width: 100%;\n      padding: 16px 20px;\n      border-radius: 12px;\n      border: 1px solid rgba(255,255,255,0.1);\n      background: rgba(255,255,255,0.05);\n      color: #fff;\n      font-size: 16px;\n      transition: all 0.3s ease;\n    \x7d\n    \n    .form-group input:focus \x7b\n      outline: none;\n      border-color: #3b82f6;\n      background: rgba(255,255,255,0.1);\n    \x7d\n    \n    .form-group input::placeholder \x7b\n      color: rgba(255,255,255,0.4);\n    \x7d\n    \n    .submit-btn \x7b\n      width: 100%;\n      padding: 18px;\n      border-radius: 12px;\n      border: none;\n      background: linear-gradient(90deg, #3b82f6, #8b5cf6);\n      color: #fff;\n      font-size: 18px;\n      font-weight: 600;\n      cursor: pointer;\n      transition: all 0.3s ease;\n    \x7d\n    \n    .submit-btn:hover \x7b\n      transform: translateY(-2px);\n      box-shadow: 0 10px 40px rgba(59, 130, 246, 0.4);\n    \x7d\n    \n    .locked-blur \x7b\n      filter: blur(20px);\n      pointer-events: none;\n    \x7d\n    \n    "

/-- Verbatim text of the presentation index.html template (template.service.ts lines 114 to 410) -/
def presH2 : String := "\n  </style>\n</head>\n<body>\n  <div class=\"presentation-container\">\n    <div class=\"slides-wrapper\">\n      "

/-- Verbatim text of the presentation index.html template (template.service.ts lines 114 to 410) -/
def presH3 : String := "\n    </div>\n    \n    <div class=\"navigation\">\n      <button class=\"nav-btn\" id=\"prevBtn\" "

/-- Verbatim text of the presentation index.html template (template.service.ts lines 114 to 410) -/
def presH4 : String := ">←</button>\n      <div class=\"progress-indicator\">\n        "

/-- Verbatim text of the presentation index.html template (template.service.ts lines 114 to 410) -/
def presH5 : String := "\n      </div>\n      <span class=\"slide-counter\"><span id=\"currentSlide\">1</span> / "

/-- Verbatim text of the presentation index.html template (template.service.ts lines 114 to 410) -/
def presH6 : String := "</span>\n      <button class=\"nav-btn\" id=\"nextBtn\" "

/-- Verbatim text of the presentation index.html template (template.service.ts lines 114 to 410) -/
def presH7 : String := ">→</button>\n    </div>\n  </div>\n  \n  "

/-- Verbatim text of the presentation index.html template (template.service.ts lines 114 to 410) -/
def presH8 : String := "\n  \n  <script src=\"js/navigation.js\"></script>\n</body>\n</html>"

/-- Verbatim text of the presentation slide block template (template.service.ts lines 359 to 372) -/
def presS0 : String := "\n        <div class=\"slide"

/-- Verbatim text of the presentation slide block template (template.service.ts lines 359 to 372) -/
def presS1 : String := "\" data-index=\""

/-- Verbatim text of the presentation slide block template (template.service.ts lines 359 to 372) -/
def presS2 : String := "\">\n          <div class=\"slide-content"

/-- Verbatim text of the presentation slide block template (template.service.ts lines 359 to 372) -/
def presS3 : String := "\">\n            "

/-- Verbatim text of the presentation slide block template (template.service.ts lines 359 to 372) -/
def presS4 : String := "\n            "

/-- Verbatim text of the presentation slide block template (template.service.ts lines 359 to 372) -/
def presS5 : String := "\n          </div>\n        </div>\n      "

/-- Verbatim text of the presentation missing-page placeholder (template.service.ts line 362) -/
def presP0 : String := "<div class=\"pdf-page\"><p>Page "

/-- Verbatim text of the presentation missing-page placeholder (template.service.ts line 362) -/
def presP1 : String := "</p></div>"

/-- Verbatim text of the presentation hotspot overlay template (template.service.ts lines 363 to 369) -/
def presHs0 : String := "\n              <a href=\""

/-- Verbatim text of the presentation hotspot overlay template (template.service.ts lines 363 to 369) -/
def presHs1 : String := "\" \n                 class=\"hotspot-link\" \n                 target=\"_blank\"\n                 style=\"top: "

/-- Verbatim text of the presentation hotspot overlay template (template.service.ts lines 363 to 369) -/
def presHs2 : String := "%; left: "

/-- Verbatim text of the presentation hotspot overlay template (template.service.ts lines 363 to 369) -/
def presHs3 : String := "%; width: "

/-- Verbatim text of the presentation hotspot overlay template (template.service.ts lines 363 to 369) -/
def presHs4 : String := "%; height: "

/-- Verbatim text of the presentation hotspot overlay template (template.service.ts lines 363 to 369) -/
def presHs5 : String := "%;\"\n                 title=\""

/-- Verbatim text of the presentation hotspot overlay template (template.service.ts lines 363 to 369) -/
def presHs6 : String := "\"></a>\n            "

/-- Verbatim text of the presentation progress-dot template (template.service.ts lines 378 to 380) -/
def presD0 : String := "\n          <div class=\"progress-dot"

/-- Verbatim text of the presentation progress-dot template (template.service.ts lines 378 to 380) -/
def presD1 : String := "\" data-index=\""

/-- Verbatim text of the presentation progress-dot template (template.service.ts lines 378 to 380) -/
def presD2 : String := "\"></div>\n        "

/-- Verbatim text of the presentation lead-gate overlay template (template.service.ts lines 387 to 406) -/
def presG0 : String := "\n  <div class=\"lead-gen-overlay\" id=\"leadGenOverlay\">\n    <div class=\"lead-gen-form\">\n      <h2>Unlock Full Access</h2>\n      <p>Fill in your details to view all "

/-- Verbatim text of the presentation lead-gate overlay template (template.service.ts lines 387 to 406) -/
def presG1 : String := " pages</p>\n      <form id=\"leadGenForm\">\n        <div class=\"form-group\">\n          <input type=\"text\" name=\"name\" placeholder=\"Your Name\" required>\n        </div>\n        <div class=\"form-group\">\n          <input type=\"email\" name=\"email\" placeholder=\"Email Address\" required>\n        </div>\n        <div class=\"form-group\">\n          <input type=\"text\" name=\"company\" placeholder=\"Company (Optional)\">\n        </div>\n        <button type=\"submit\" class=\"submit-btn\">Get Access</button>\n      </form>\n    </div>\n  </div>\n  "

/-- Verbatim text of the generated presentation runtime script js/navigation.js (template.service.ts lines 416 to 529) -/
def navJ0 : String := "\n(function() \x7b\n  let currentIndex = 0;\n  const slides = document.querySelectorAll(\x27.slide\x27);\n  const dots = document.querySelectorAll(\x27.progress-dot\x27);\n  const prevBtn = document.getElementById(\x27prevBtn\x27);\n  const nextBtn = document.getElementById(\x27nextBtn\x27);\n  const counter = document.getElementById(\x27currentSlide\x27);\n  const leadGenEnabled = "

/-- Verbatim text of the generated presentation runtime script js/navigation.js (template.service.ts lines 416 to 529) -/
def navJ1 : String := ";\n  const freePages = "

/-- Verbatim text of the generated presentation runtime script js/navigation.js (template.service.ts lines 416 to 529) -/
def navJ2 : String := ";\n  let unlocked = "

/-- Verbatim text of the generated presentation runtime script js/navigation.js (template.service.ts lines 416 to 529) -/
def navJ3 : String := " === \x27true\x27;\n  \n  function goToSlide(index) \x7b\n    if (index < 0 || index >= slides.length) return;\n    \n    // Check if lead gen gate applies\n    if (leadGenEnabled && !unlocked && index >= freePages) \x7b\n      document.getElementById(\x27leadGenOverlay\x27).classList.add(\x27active\x27);\n      return;\n    \x7d\n    \n    slides[currentIndex].classList.remove(\x27active\x27);\n    slides[currentIndex].classList.add(\x27prev\x27);\n    dots[currentIndex].classList.remove(\x27active\x27);\n    \n    currentIndex = index;\n    \n    slides.forEach((slide, i) => \x7b\n      slide.classList.remove(\x27prev\x27);\n      if (i < currentIndex) slide.classList.add(\x27prev\x27);\n    \x7d);\n    \n    slides[currentIndex].classList.add(\x27active\x27);\n    dots[currentIndex].classList.add(\x27active\x27);\n    counter.textContent = currentIndex + 1;\n    \n    prevBtn.disabled = currentIndex === 0;\n    nextBtn.disabled = currentIndex === slides.length - 1;\n  \x7d\n  \n  prevBtn.addEventListener(\x27click\x27, () => goToSlide(currentIndex - 1));\n  nextBtn.addEventListener(\x27click\x27, () => goToSlide(currentIndex + 1));\n  \n  dots.forEach((dot, i) => \x7b\n    dot.addEventListener(\x27click\x27, () => goToSlide(i));\n  \x7d);\n  \n  // Keyboard navigation\n  document.addEventListener(\x27keydown\x27, (e) => \x7b\n    if (e.key === \x27ArrowLeft\x27 || e.key === \x27ArrowUp\x27) \x7b\n      goToSlide(currentIndex - 1);\n    \x7d else if (e.key === \x27ArrowRight\x27 || e.key === \x27ArrowDown\x27 || e.key === \x27 \x27) \x7b\n      e.preventDefault();\n      goToSlide(currentIndex + 1);\n    \x7d\n  \x7d);\n  \n  // Touch swipe\n  let touchStartX = 0;\n  document.addEventListener(\x27touchstart\x27, (e) => \x7b\n    touchStartX = e.touches[0].clientX;\n  \x7d);\n  \n  document.addEventListener(\x27touchend\x27, (e) => \x7b\n    const touchEndX = e.changedTouches[0].clientX;\n    const diff = touchStartX - touchEndX;\n    \n    if (Math.abs(diff) > 50) \x7b\n      if (diff > 0) \x7b\n        goToSlide(currentIndex + 1);\n      \x7d else \x7b\n        goToSlide(currentIndex - 1);\n      \x7d\n    \x7d\n  \x7d);\n  \n  // Lead gen form handling\n  if (leadGenEnabled) \x7b\n    const form = document.getElementById(\x27leadGenForm\x27);\n    const overlay = document.getElementById(\x27leadGenOverlay\x27);\n    \n    if (unlocked) \x7b\n      document.querySelectorAll(\x27.locked-blur\x27).forEach(el => el.classList.remove(\x27locked-blur\x27));\n    \x7d\n    \n    form.addEventListener(\x27submit\x27, (e) => \x7b\n      e.preventDefault();\n      const formData = new FormData(form);\n      const data = Object.fromEntries(formData.entries());\n      \n      console.log(\x27Lead captured:\x27, data);\n      \n      // Store unlock state\n      "

/-- Verbatim text of the generated presentation runtime script js/navigation.js (template.service.ts lines 416 to 529) -/
def navJ4 : String := ";\n      unlocked = true;\n      \n      // Remove blur from all pages\n      document.querySelectorAll(\x27.locked-blur\x27).forEach(el => el.classList.remove(\x27locked-blur\x27));\n      \n      // Close overlay\n      overlay.classList.remove(\x27active\x27);\n      \n      // Optional: Send to webhook\n      "

/-- Verbatim text of the generated presentation runtime script js/navigation.js (template.service.ts lines 416 to 529) -/
def navJ5 : String := "\n    \x7d);\n  \x7d\n\x7d)();\n"

/-- Verbatim text of the webhook submission chunk of js/navigation.js (template.service.ts lines 519 to 525) -/
def navW0 : String := "\n      fetch(\x27"

/-- Verbatim text of the webhook submission chunk of js/navigation.js (template.service.ts lines 519 to 525) -/
def navW1 : String := "\x27, \x7b\n        method: \x27POST\x27,\n        headers: \x7b \x27Content-Type\x27: \x27application/json\x27 \x7d,\n        body: JSON.stringify(data)\n      \x7d).catch(console.error);\n      "

/-- Verbatim text of assets/template.css written by the presentation generator (template.service.ts lines 534 to 536) -/
def presCssT0 : String := "\n/* Template-specific styles */\n"

/-- Verbatim text of the flipbook index.html template (template.service.ts lines 550 to 822) -/
def flipH0 : String := "<!DOCTYPE html>\n<html lang=\"en\">\n<head>\n  <meta charset=\"UTF-8\">\n  <meta name=\"viewport\" content=\"width=device-width, initial-scale=1.0\">\n  <title>"

/-- Verbatim text of the flipbook index.html template (template.service.ts lines 550 to 822) -/
def flipH1 : String := "</title>\n  <link rel=\"stylesheet\" href=\"assets/styles.css\">\n  <style>\n    * \x7b margin: 0; padding: 0; box-sizing: border-box; \x7d\n    \n    body \x7b\n      font-family: system-ui, -apple-system, BlinkMacSystemFont, \x27Segoe UI\x27, Roboto, sans-serif;\n      background: linear-gradient(135deg, #2d1b4e 0%, #1a0a2e 100%);\n      min-height: 100vh;\n      display: flex;\n      flex-direction: column;\n      align-items: center;\n      justify-content: center;\n      padding: 20px;\n    \x7d\n    \n    .flipbook-title \x7b\n      color: #fff;\n      font-size: 32px;\n      font-weight: 700;\n      margin-bottom: 24px;\n      text-align: center;\n      text-shadow: 0 2px 20px rgba(0,0,0,0.3);\n    \x7d\n    \n    .flipbook-container \x7b\n      perspective: 2500px;\n      width: 100%;\n      max-width: 1000px;\n    \x7d\n    \n    .flipbook \x7b\n      position: relative;\n      width: 100%;\n      height: 600px;\n      transform-style: preserve-3d;\n    \x7d\n    \n    .page \x7b\n      position: absolute;\n      width: 50%;\n      height: 100%;\n      right: 0;\n      transform-origin: left center;\n      transition: transform 0.8s cubic-bezier(0.645, 0.045, 0.355, 1);\n      transform-style: preserve-3d;\n      cursor: pointer;\n      background: #fff;\n      box-shadow: 0 5px 30px rgba(0,0,0,0.3);\n      border-radius: 0 8px 8px 0;\n    \x7d\n    \n    .page.flipped \x7b\n      transform: rotateY(-180deg);\n    \x7d\n    \n    .page-front, .page-back \x7b\n      position: absolute;\n      width: 100%;\n      height: 100%;\n      backface-visibility: hidden;\n      overflow: hidden;\n      padding: 30px;\n      display: flex;\n      align-items: flex-start;\n      justify-content: center;\n    \x7d\n    \n    .page-back \x7b\n      transform: rotateY(180deg);\n      background: linear-gradient(135deg, #f8f9fa 0%, #e9ecef 100%);\n    \x7d\n    \n    .page-content \x7b\n      width: 100%;\n      height: 100%;\n      overflow: auto;\n    \x7d\n    \n    .page-number \x7b\n      position: absolute;\n      bottom: 15px;\n      font-size: 12px;\n      color: #666;\n    \x7d\n    \n    .page-front .page-number \x7b right: 20px; \x7d\n    .page-back .page-number \x7b left: 20px; \x7d\n    \n    .navigation \x7b\n      display: flex;\n      justify-content: center;\n      gap: 20px;\n      margin-top: 30px;\n    \x7d\n    \n    .nav-btn \x7b\n      padding: 14px 32px;\n      border-radius: 50px;\n      border: none;\n      background: rgba(255,255,255,0.1);\n      color: #fff;\n      font-size: 16px;\n      cursor: pointer;\n      transition: all 0.3s ease;\n      backdrop-filter: blur(10px);\n    \x7d\n    \n    .nav-btn:hover:not(:disabled) \x7b\n      background: rgba(255,255,255,0.2);\n      transform: translateY(-2px);\n    \x7d\n    \n    .nav-btn:disabled \x7b\n      opacity: 0.3;\n      cursor: not-allowed;\n    \x7d\n    \n    .page-indicator \x7b\n      color: rgba(255,255,255,0.7);\n      font-size: 14px;\n      display: flex;\n      align-items: center;\n    \x7d\n    \n    .hotspot-link \x7b\n      position: absolute;\n      background: rgba(139, 92, 246, 0.1);\n      border: 2px solid rgba(139, 92, 246, 0.5);\n      border-radius: 4px;\n      cursor: pointer;\n      transition: all 0.3s ease;\n      z-index: 10;\n    \x7d\n    \n    .hotspot-link:hover \x7b\n      background: rgba(139, 92, 246, 0.3);\n    \x7d\n    \n    .locked-blur \x7b\n      filter: blur(15px);\n    \x7d\n    \n    /* Lead Gen */\n    .lead-gen-overlay \x7b\n      position: fixed;\n      top: 0;\n      left: 0;\n      width: 100%;\n      height: 100%;\n      background: rgba(0,0,0,0.9);\n      backdrop-filter: blur(20px);\n      display: none;\n      align-items: center;\n      justify-content: center;\n      z-index: 1000;\n    \x7d\n    \n    .lead-gen-overlay.active \x7b display: flex; \x7d\n    \n    .lead-gen-form \x7b\n      background: linear-gradient(135deg, #2d1b4e 0%, #1a0a2e 100%);\n      border-radius: 24px;\n      padding: 48px;\n      max-width: 480px;\n      width: 90%;\n      border: 1px solid rgba(255,255,255,0.1);\n    \x7d\n    \n    .lead-gen-form h2 \x7b\n      font-size: 28px;\n      margin-bottom: 8px;\n      color: #fff;\n    \x7d\n    \n    .lead-gen-form p \x7b\n      color: rgba(255,255,255,0.6);\n      margin-bottom: 32px;\n    \x7d\n    \n    .form-group \x7b\n      margin-bottom: 20px;\n    \x7d\n    \n    .form-group input \x7b\n      width: 100%;\n      padding: 16px 20px;\n      border-radius: 12px;\n      border: 1px solid rgba(255,255,255,0.1);\n      background: rgba(255,255,255,0.05);\n      color: #fff;\n      font-size: 16px;\n    \x7d\n    \n    .form-group input:focus \x7b\n      outline: none;\n      border-color: #8b5cf6;\n    \x7d\n    \n    .submit-btn \x7b\n      width: 100%;\n      padding: 18px;\n      border-radius: 12px;\n      border: none;\n      background: linear-gradient(90deg, #8b5cf6, #ec4899);\n      color: #fff;\n      font-size: 18px;\n      font-weight: 600;\n      cursor: pointer;\n    \x7d\n    \n    "

/-- Verbatim text of the flipbook index.html template (template.service.ts lines 550 to 822) -/
def flipH2 : String := "\n  </style>\n</head>\n<body>\n  <h1 class=\"flipbook-title\">"

/-- Verbatim text of the flipbook index.html template (template.service.ts lines 550 to 822) -/
def flipH3 : String := "</h1>\n  \n  <div class=\"flipbook-container\">\n    <div class=\"flipbook\" id=\"flipbook\">\n      "

/-- Verbatim text of the flipbook index.html template (template.service.ts lines 550 to 822) -/
def flipH4 : String := "\n    </div>\n  </div>\n  \n  <div class=\"navigation\">\n    <button class=\"nav-btn\" id=\"prevBtn\">← Previous</button>\n    <span class=\"page-indicator\"><span id=\"currentPage\">1</span> of "

/-- Verbatim text of the flipbook index.html template (template.service.ts lines 550 to 822) -/
def flipH5 : String := "</span>\n    <button class=\"nav-btn\" id=\"nextBtn\">Next →</button>\n  </div>\n  \n  "

/-- Verbatim text of the flipbook index.html template (template.service.ts lines 550 to 822) -/
def flipH6 : String := "\n  \n  <script src=\"js/flipbook.js\"></script>\n</body>\n</html>"

/-- Verbatim text of the flipbook page leaf template (template.service.ts lines 774 to 792) -/
def flipS0 : String := "\n        <div class=\"page\" data-index=\""

/-- Verbatim text of the flipbook page leaf template (template.service.ts lines 774 to 792) -/
def flipS1 : String := "\" style=\"z-index: "

/-- Verbatim text of the flipbook page leaf template (template.service.ts lines 774 to 792) -/
def flipS2 : String := ";\">\n          <div class=\"page-front"

/-- Verbatim text of the flipbook page leaf template (template.service.ts lines 774 to 792) -/
def flipS3 : String := "\">\n            <div class=\"page-content\">\n              "

/-- Verbatim text of the flipbook page leaf template (template.service.ts lines 774 to 792) -/
def flipS4 : String := "\n            </div>\n            <span class=\"page-number\">"

/-- Verbatim text of the flipbook page leaf template (template.service.ts lines 774 to 792) -/
def flipS5 : String := "</span>\n            "

/-- Verbatim text of the flipbook page leaf template (template.service.ts lines 774 to 792) -/
def flipS6 : String := "\n          </div>\n          <div class=\"page-back\">\n            <span class=\"page-number\">"

/-- Verbatim text of the flipbook page leaf template (template.service.ts lines 774 to 792) -/
def flipS7 : String := "</span>\n          </div>\n        </div>\n      "

/-- Verbatim text of the flipbook missing-page placeholder (template.service.ts line 778) -/
def flipP0 : String := "<p>Page "

/-- Verbatim text of the flipbook missing-page placeholder (template.service.ts line 778) -/
def flipP1 : String := "</p>"

/-- Verbatim text of the flipbook hotspot overlay template (template.service.ts lines 781 to 786) -/
def flipHsp0 : String := "\n              <a href=\""

/-- Verbatim text of the flipbook hotspot overlay template (template.service.ts lines 781 to 786) -/
def flipHsp1 : String := "\" \n                 class=\"hotspot-link\" \n                 target=\"_blank\"\n                 style=\"top: "

/-- Verbatim text of the flipbook hotspot overlay template (template.service.ts lines 781 to 786) -/
def flipHsp2 : String := "%; left: "

/-- Verbatim text of the flipbook hotspot overlay template (template.service.ts lines 781 to 786) -/
def flipHsp3 : String := "%; width: "

/-- Verbatim text of the flipbook hotspot overlay template (template.service.ts lines 781 to 786) -/
def flipHsp4 : String := "%; height: "

/-- Verbatim text of the flipbook hotspot overlay template (template.service.ts lines 781 to 786) -/
def flipHsp5 : String := "%;\"></a>\n            "

/-- Verbatim text of the flipbook lead-gate overlay template (template.service.ts lines 802 to 818) -/
def flipG0 : String := "\n  <div class=\"lead-gen-overlay\" id=\"leadGenOverlay\">\n    <div class=\"lead-gen-form\">\n      <h2>Continue Reading</h2>\n      <p>Enter your details to unlock all pages</p>\n      <form id=\"leadGenForm\">\n        <div class=\"form-group\">\n          <input type=\"text\" name=\"name\" placeholder=\"Your Name\" required>\n        </div>\n        <div class=\"form-group\">\n          <input type=\"email\" name=\"email\" placeholder=\"Email Address\" required>\n        </div>\n        <button type=\"submit\" class=\"submit-btn\">Unlock Now</button>\n      </form>\n    </div>\n  </div>\n  "

/-- Verbatim text of the generated flipbook runtime script js/flipbook.js (template.service.ts lines 827 to 897) -/
def flipJ0 : String := "\n(function() \x7b\n  let currentPage = 0;\n  const pages = document.querySelectorAll(\x27.page\x27);\n  const prevBtn = document.getElementById(\x27prevBtn\x27);\n  const nextBtn = document.getElementById(\x27nextBtn\x27);\n  const counter = document.getElementById(\x27currentPage\x27);\n  const leadGenEnabled = "

/-- Verbatim text of the generated flipbook runtime script js/flipbook.js (template.service.ts lines 827 to 897) -/
def flipJ1 : String := ";\n  const freePages = "

/-- Verbatim text of the generated flipbook runtime script js/flipbook.js (template.service.ts lines 827 to 897) -/
def flipJ2 : String := ";\n  let unlocked = "

/-- Verbatim text of the generated flipbook runtime script js/flipbook.js (template.service.ts lines 827 to 897) -/
def flipJ3 : String := " === \x27true\x27;\n  \n  function updateButtons() \x7b\n    prevBtn.disabled = currentPage === 0;\n    nextBtn.disabled = currentPage === pages.length - 1;\n    counter.textContent = currentPage + 1;\n  \x7d\n  \n  function flipTo(index) \x7b\n    if (index < 0 || index >= pages.length) return;\n    \n    if (leadGenEnabled && !unlocked && index >= freePages) \x7b\n      document.getElementById(\x27leadGenOverlay\x27).classList.add(\x27active\x27);\n      return;\n    \x7d\n    \n    if (index > currentPage) \x7b\n      for (let i = currentPage; i < index; i++) \x7b\n        pages[i].classList.add(\x27flipped\x27);\n      \x7d\n    \x7d else \x7b\n      for (let i = currentPage - 1; i >= index; i--) \x7b\n        pages[i].classList.remove(\x27flipped\x27);\n      \x7d\n    \x7d\n    \n    currentPage = index;\n    updateButtons();\n  \x7d\n  \n  prevBtn.addEventListener(\x27click\x27, () => flipTo(currentPage - 1));\n  nextBtn.addEventListener(\x27click\x27, () => flipTo(currentPage + 1));\n  \n  pages.forEach((page, i) => \x7b\n    page.addEventListener(\x27click\x27, () => flipTo(i + 1));\n  \x7d);\n  \n  document.addEventListener(\x27keydown\x27, (e) => \x7b\n    if (e.key === \x27ArrowRight\x27) flipTo(currentPage + 1);\n    if (e.key === \x27ArrowLeft\x27) flipTo(currentPage - 1);\n  \x7d);\n  \n  if (leadGenEnabled) \x7b\n    const form = document.getElementById(\x27leadGenForm\x27);\n    const overlay = document.getElementById(\x27leadGenOverlay\x27);\n    \n    if (unlocked) \x7b\n      document.querySelectorAll(\x27.locked-blur\x27).forEach(el => el.classList.remove(\x27locked-blur\x27));\n    \x7d\n    \n    form.addEventListener(\x27submit\x27, (e) => \x7b\n      e.preventDefault();\n      "

/-- Verbatim text of the generated flipbook runtime script js/flipbook.js (template.service.ts lines 827 to 897) -/
def flipJ4 : String := ";\n      unlocked = true;\n      document.querySelectorAll(\x27.locked-blur\x27).forEach(el => el.classList.remove(\x27locked-blur\x27));\n      overlay.classList.remove(\x27active\x27);\n    \x7d);\n  \x7d\n  \n  updateButtons();\n\x7d)();\n"

/-- Verbatim text of the documentation index.html template (template.service.ts lines 912 to 1270) -/
def docH0 : String := "<!DOCTYPE html>\n<html lang=\"en\">\n<head>\n  <meta charset=\"UTF-8\">\n  <meta name=\"viewport\" content=\"width=device-width, initial-scale=1.0\">\n  <title>"

/-- Verbatim text of the documentation index.html template (template.service.ts lines 912 to 1270) -/
def docH1 : String := "</title>\n  <link rel=\"stylesheet\" href=\"assets/styles.css\">\n  <style>\n    * \x7b margin: 0; padding: 0; box-sizing: border-box; \x7d\n    \n    body \x7b\n      font-family: system-ui, -apple-system, BlinkMacSystemFont, \x27Segoe UI\x27, Roboto, sans-serif;\n      background: #f8fafc;\n      color: #1e293b;\n      line-height: 1.6;\n    \x7d\n    \n    .doc-container \x7b\n      display: flex;\n      min-height: 100vh;\n    \x7d\n    \n    .sidebar \x7b\n      width: 280px;\n      background: #1e293b;\n      color: #fff;\n      padding: 24px;\n      position: fixed;\n      height: 100vh;\n      overflow-y: auto;\n      box-shadow: 4px 0 20px rgba(0,0,0,0.1);\n    \x7d\n    \n    .sidebar-title \x7b\n      font-size: 20px;\n      font-weight: 700;\n      margin-bottom: 8px;\n      padding-bottom: 16px;\n      border-bottom: 1px solid rgba(255,255,255,0.1);\n    \x7d\n    \n    .sidebar-subtitle \x7b\n      font-size: 12px;\n      text-transform: uppercase;\n      letter-spacing: 1px;\n      color: rgba(255,255,255,0.5);\n      margin-bottom: 16px;\n      margin-top: 24px;\n    \x7d\n    \n    .toc-list \x7b\n      list-style: none;\n    \x7d\n    \n    .toc-item \x7b\n      margin-bottom: 4px;\n    \x7d\n    \n    .toc-link \x7b\n      display: block;\n      padding: 10px 16px;\n      color: rgba(255,255,255,0.7);\n      text-decoration: none;\n      border-radius: 8px;\n      transition: all 0.2s ease;\n      font-size: 14px;\n    \x7d\n    \n    .toc-link:hover \x7b\n      background: rgba(255,255,255,0.1);\n      color: #fff;\n    \x7d\n    \n    .toc-link.active \x7b\n      background: linear-gradient(90deg, #3b82f6, #8b5cf6);\n      color: #fff;\n    \x7d\n    \n    .content \x7b\n      flex: 1;\n      margin-left: 280px;\n      padding: 48px 64px;\n      max-width: 1200px;\n    \x7d\n    \n    .doc-header \x7b\n      margin-bottom: 48px;\n      padding-bottom: 32px;\n      border-bottom: 1px solid #e2e8f0;\n    \x7d\n    \n    .doc-header h1 \x7b\n      font-size: 42px;\n      font-weight: 800;\n      background: linear-gradient(90deg, #1e293b, #475569);\n      -webkit-background-clip: text;\n      -webkit-text-fill-color: transparent;\n      margin-bottom: 8px;\n    \x7d\n    \n    .doc-header p \x7b\n      font-size: 18px;\n      color: #64748b;\n    \x7d\n    \n    .section \x7b\n      margin-bottom: 64px;\n      scroll-margin-top: 24px;\n    \x7d\n    \n    .section-title \x7b\n      font-size: 24px;\n      font-weight: 700;\n      margin-bottom: 24px;\n      color: #1e293b;\n      display: flex;\n      align-items: center;\n      gap: 12px;\n    \x7d\n    \n    .section-number \x7b\n      background: linear-gradient(90deg, #3b82f6, #8b5cf6);\n      color: #fff;\n      width: 36px;\n      height: 36px;\n      border-radius: 50%;\n      display: flex;\n      align-items: center;\n      justify-content: center;\n      font-size: 16px;\n      font-weight: 600;\n    \x7d\n    \n    .page-content \x7b\n      position: relative;\n      background: #fff;\n      border-radius: 16px;\n      padding: 32px;\n      box-shadow: 0 1px 3px rgba(0,0,0,0.1);\n      border: 1px solid #e2e8f0;\n    \x7d\n    \n    .hotspot-link \x7b\n      position: absolute;\n      background: rgba(59, 130, 246, 0.1);\n      border: 2px solid rgba(59, 130, 246, 0.4);\n      border-radius: 4px;\n      cursor: pointer;\n      transition: all 0.3s ease;\n    \x7d\n    \n    .hotspot-link:hover \x7b\n      background: rgba(59, 130, 246, 0.2);\n      border-color: #3b82f6;\n    \x7d\n    \n    .locked-section \x7b\n      position: relative;\n    \x7d\n    \n    .locked-section .page-content \x7b\n      filter: blur(10px);\n    \x7d\n    \n    .lock-overlay \x7b\n      position: absolute;\n      top: 0;\n      left: 0;\n      right: 0;\n      bottom: 0;\n      display: flex;\n      align-items: center;\n      justify-content: center;\n      z-index: 10;\n    \x7d\n    \n    .lock-message \x7b\n      background: #fff;\n      padding: 32px 48px;\n      border-radius: 16px;\n      text-align: center;\n      box-shadow: 0 10px 40px rgba(0,0,0,0.15);\n    \x7d\n    \n    .lock-message h3 \x7b\n      margin-bottom: 8px;\n      color: #1e293b;\n    \x7d\n    \n    .lock-message p \x7b\n      color: #64748b;\n      margin-bottom: 16px;\n    \x7d\n    \n    .unlock-btn \x7b\n      padding: 12px 32px;\n      border-radius: 8px;\n      border: none;\n      background: linear-gradient(90deg, #3b82f6, #8b5cf6);\n      color: #fff;\n      font-size: 16px;\n      font-weight: 600;\n      cursor: pointer;\n    \x7d\n    \n    /* Lead Gen Modal */\n    .lead-gen-overlay \x7b\n      position: fixed;\n      top: 0;\n      left: 0;\n      width: 100%;\n      height: 100%;\n      background: rgba(0,0,0,0.7);\n      backdrop-filter: blur(10px);\n      display: none;\n      align-items: center;\n      justify-content: center;\n      z-index: 1000;\n    \x7d\n    \n    .lead-gen-overlay.active \x7b display: flex; \x7d\n    \n    .lead-gen-form \x7b\n      background: #fff;\n      border-radius: 24px;\n      padding: 48px;\n      max-width: 480px;\n      width: 90%;\n    \x7d\n    \n    .lead-gen-form h2 \x7b\n      font-size: 28px;\n      margin-bottom: 8px;\n      color: #1e293b;\n    \x7d\n    \n    .lead-gen-form p \x7b\n      color: #64748b;\n      margin-bottom: 32px;\n    \x7d\n    \n    .form-group \x7b\n      margin-bottom: 20px;\n    \x7d\n    \n    .form-group input \x7b\n      width: 100%;\n      padding: 16px 20px;\n      border-radius: 12px;\n      border: 1px solid #e2e8f0;\n      font-size: 16px;\n    \x7d\n    \n    .form-group input:focus \x7b\n      outline: none;\n      border-color: #3b82f6;\n    \x7d\n    \n    .submit-btn \x7b\n      width: 100%;\n      padding: 18px;\n      border-radius: 12px;\n      border: none;\n      background: linear-gradient(90deg, #3b82f6, #8b5cf6);\n      color: #fff;\n      font-size: 18px;\n      font-weight: 600;\n      cursor: pointer;\n    \x7d\n    \n    @media (max-width: 768px) \x7b\n      .sidebar \x7b\n        display: none;\n      \x7d\n      .content \x7b\n        margin-left: 0;\n        padding: 24px;\n      \x7d\n    \x7d\n    \n    "

/-- Verbatim text of the documentation index.html template (template.service.ts lines 912 to 1270) -/
def docH2 : String := "\n  </style>\n</head>\n<body>\n  <div class=\"doc-container\">\n    <aside class=\"sidebar\">\n      <h2 class=\"sidebar-title\">"

/-- Verbatim text of the documentation index.html template (template.service.ts lines 912 to 1270) -/
def docH3 : String := "</h2>\n      <p class=\"sidebar-subtitle\">Contents</p>\n      <nav>\n        <ul class=\"toc-list\">\n          "

/-- Verbatim text of the documentation index.html template (template.service.ts lines 912 to 1270) -/
def docH4 : String := "\n        </ul>\n      </nav>\n    </aside>\n    \n    <main class=\"content\">\n      <header class=\"doc-header\">\n        <h1>"

/-- Verbatim text of the documentation index.html template (template.service.ts lines 912 to 1270) -/
def docH5 : String := "</h1>\n        <p>"

/-- Verbatim text of the documentation index.html template (template.service.ts lines 912 to 1270) -/
def docH6 : String := " pages</p>\n      </header>\n      \n      "

/-- Verbatim text of the documentation index.html template (template.service.ts lines 912 to 1270) -/
def docH7 : String := "\n    </main>\n  </div>\n  \n  "

/-- Verbatim text of the documentation index.html template (template.service.ts lines 912 to 1270) -/
def docH8 : String := "\n  \n  <script src=\"js/documentation.js\"></script>\n</body>\n</html>"

/-- Verbatim text of the documentation table-of-contents item template (template.service.ts lines 1202 to 1208) -/
def docT0 : String := "\n            <li class=\"toc-item\">\n              <a href=\"#section-"

/-- Verbatim text of the documentation table-of-contents item template (template.service.ts lines 1202 to 1208) -/
def docT1 : String := "\" class=\"toc-link"

/-- Verbatim text of the documentation table-of-contents item template (template.service.ts lines 1202 to 1208) -/
def docT2 : String := "\" data-index=\""

/-- Verbatim text of the documentation table-of-contents item template (template.service.ts lines 1202 to 1208) -/
def docT3 : String := "\">\n                Page "

/-- Verbatim text of the documentation table-of-contents item template (template.service.ts lines 1202 to 1208) -/
def docT4 : String := "\n              </a>\n            </li>\n          "

/-- Verbatim text of the documentation section template (template.service.ts lines 1219 to 1246) -/
def docS0 : String := "\n        <div class=\"section"

/-- Verbatim text of the documentation section template (template.service.ts lines 1219 to 1246) -/
def docS1 : String := "\" id=\"section-"

/-- Verbatim text of the documentation section template (template.service.ts lines 1219 to 1246) -/
def docS2 : String := "\">\n          <h2 class=\"section-title\">\n            <span class=\"section-number\">"

/-- Verbatim text of the documentation section template (template.service.ts lines 1219 to 1246) -/
def docS3 : String := "</span>\n            Page "

/-- Verbatim text of the documentation section template (template.service.ts lines 1219 to 1246) -/
def docS4 : String := "\n          </h2>\n          <div class=\"page-content\">\n            "

/-- Verbatim text of the documentation section template (template.service.ts lines 1219 to 1246) -/
def docS5 : String := "\n            "

/-- Verbatim text of the documentation section template (template.service.ts lines 1219 to 1246) -/
def docS6 : String := "\n          </div>\n          "

/-- Verbatim text of the documentation section template (template.service.ts lines 1219 to 1246) -/
def docS7 : String := "\n        </div>\n      "

/-- Verbatim text of the documentation missing-page placeholder (template.service.ts line 1226) -/
def docP0 : String := "<p>Page content "

/-- Verbatim text of the documentation missing-page placeholder (template.service.ts line 1226) -/
def docP1 : String := "</p>"

/-- Verbatim text of the documentation hotspot overlay template (template.service.ts lines 1227 to 1232) -/
def docHsp0 : String := "\n              <a href=\""

/-- Verbatim text of the documentation hotspot overlay template (template.service.ts lines 1227 to 1232) -/
def docHsp1 : String := "\" \n                 class=\"hotspot-link\" \n                 target=\"_blank\"\n                 style=\"top: "

/-- Verbatim text of the documentation hotspot overlay template (template.service.ts lines 1227 to 1232) -/
def docHsp2 : String := "%; left: "

/-- Verbatim text of the documentation hotspot overlay template (template.service.ts lines 1227 to 1232) -/
def docHsp3 : String := "%; width: "

/-- Verbatim text of the documentation hotspot overlay template (template.service.ts lines 1227 to 1232) -/
def docHsp4 : String := "%; height: "

/-- Verbatim text of the documentation hotspot overlay template (template.service.ts lines 1227 to 1232) -/
def docHsp5 : String := "%;\"></a>\n            "

/-- Verbatim text of the documentation per-section lock overlay template (template.service.ts lines 1234 to 1244) -/
def docL0 : String := "\n            <div class=\"lock-overlay\">\n              <div class=\"lock-message\">\n                <h3>🔒 Content Locked</h3>\n                <p>Fill in your details to unlock</p>\n                <button class=\"unlock-btn\" onclick=\"document.getElementById(\x27leadGenOverlay\x27).classList.add(\x27active\x27)\">\n                  Unlock Now\n                </button>\n              </div>\n            </div>\n          "

/-- Verbatim text of the documentation lead-gate overlay template (template.service.ts lines 1250 to 1266) -/
def docG0 : String := "\n  <div class=\"lead-gen-overlay\" id=\"leadGenOverlay\">\n    <div class=\"lead-gen-form\">\n      <h2>Get Full Access</h2>\n      <p>Enter your details to unlock all content</p>\n      <form id=\"leadGenForm\">\n        <div class=\"form-group\">\n          <input type=\"text\" name=\"name\" placeholder=\"Your Name\" required>\n        </div>\n        <div class=\"form-group\">\n          <input type=\"email\" name=\"email\" placeholder=\"Email Address\" required>\n        </div>\n        <button type=\"submit\" class=\"submit-btn\">Unlock Content</button>\n      </form>\n    </div>\n  </div>\n  "

/-- Verbatim text of the generated documentation runtime script js/documentation.js (template.service.ts lines 1275 to 1337) -/
def docJ0 : String := "\n(function() \x7b\n  const links = document.querySelectorAll(\x27.toc-link\x27);\n  const sections = document.querySelectorAll(\x27.section\x27);\n  const leadGenEnabled = "

/-- Verbatim text of the generated documentation runtime script js/documentation.js (template.service.ts lines 1275 to 1337) -/
def docJ1 : String := ";\n  let unlocked = "

/-- Verbatim text of the generated documentation runtime script js/documentation.js (template.service.ts lines 1275 to 1337) -/
def docJ2 : String := " === \x27true\x27;\n  \n  // Smooth scroll and active state\n  links.forEach(link => \x7b\n    link.addEventListener(\x27click\x27, (e) => \x7b\n      e.preventDefault();\n      const target = document.querySelector(link.getAttribute(\x27href\x27));\n      target.scrollIntoView(\x7b behavior: \x27smooth\x27 \x7d);\n    \x7d);\n  \x7d);\n  \n  // Update active state on scroll\n  function updateActiveLink() \x7b\n    let current = \x27\x27;\n    sections.forEach((section, i) => \x7b\n      const rect = section.getBoundingClientRect();\n      if (rect.top <= 100) \x7b\n        current = \x27section-\x27 + i;\n      \x7d\n    \x7d);\n    \n    links.forEach(link => \x7b\n      link.classList.remove(\x27active\x27);\n      if (link.getAttribute(\x27href\x27) === \x27#\x27 + current) \x7b\n        link.classList.add(\x27active\x27);\n      \x7d\n    \x7d);\n  \x7d\n  \n  window.addEventListener(\x27scroll\x27, updateActiveLink);\n  \n  // Lead gen\n  if (leadGenEnabled) \x7b\n    const form = document.getElementById(\x27leadGenForm\x27);\n    const overlay = document.getElementById(\x27leadGenOverlay\x27);\n    \n    if (unlocked) \x7b\n      document.querySelectorAll(\x27.locked-section\x27).forEach(el => \x7b\n        el.classList.remove(\x27locked-section\x27);\n        const lockOverlay = el.querySelector(\x27.lock-overlay\x27);\n        if (lockOverlay) lockOverlay.remove();\n      \x7d);\n    \x7d\n    \n    form.addEventListener(\x27submit\x27, (e) => \x7b\n      e.preventDefault();\n      "

/-- Verbatim text of the generated documentation runtime script js/documentation.js (template.service.ts lines 1275 to 1337) -/
def docJ3 : String := ";\n      unlocked = true;\n      document.querySelectorAll(\x27.locked-section\x27).forEach(el => \x7b\n        el.classList.remove(\x27locked-section\x27);\n        const lockOverlay = el.querySelector(\x27.lock-overlay\x27);\n        if (lockOverlay) lockOverlay.remove();\n      \x7d);\n      overlay.classList.remove(\x27active\x27);\n    \x7d);\n  \x7d\n\x7d)();\n"

/-- List-prefix test used to define substring occurrence counting. -/
def listStarts : List Char → List Char → Bool
  | [], _ => true
  | _ :: _, [] => false
  | a :: as, b :: bs => a = b && listStarts as bs

/-- Number of positions of s at which pat occurs as a prefix of the remaining
suffix, that is, the number of occurrences of pat as a substring of s. -/
def countOccs (pat : List Char) : List Char → Nat
  | [] => 0
  | b :: bs => (if listStarts pat (b :: bs) then 1 else 0) + countOccs pat bs

/-- String-level occurrence count. -/
def countOccsS (pat s : String) : Nat := countOccs pat.data s.data

/-- A user-placed clickable rectangle, from the Hotspot interface of
template.service.ts lines 4 to 13.  Coordinates are modelled as integers;
pageIndex is the 0-based page reference. -/
structure Hotspot where
  id : String
  pageIndex : Int
  top : Int
  left : Int
  width : Int
  height : Int
  url : String
  label : Option String
  deriving DecidableEq, Repr, Inhabited

/-- Contact-field switches of the lead-generation form, from the
LeadGenConfig interface of template.service.ts lines 18 to 23. -/
structure LeadGenFields where
  name : Bool
  email : Bool
  company : Bool
  phone : Bool
  deriving DecidableEq, Repr, Inhabited

/-- Lead-generation policy, from the LeadGenConfig interface of
template.service.ts lines 15 to 25. -/
structure LeadGenConfig where
  enabled : Bool
  freePages : Int
  fields : Option LeadGenFields
  webhookUrl : Option String
  deriving DecidableEq, Repr, Inhabited

/-- Options of generateTemplate, from the TemplateOptions interface of
template.service.ts lines 27 to 36.  The template field is a plain string:
at runtime the switch in generateTemplate lines 89 to 101 accepts any string
and falls back to the presentation branch. -/
structure TemplateOptions where
  jobId : String
  outputDir : String
  template : String
  title : String
  pageCount : Nat
  hotspots : List Hotspot
  leadGen : LeadGenConfig
  customCss : Option String
  deriving DecidableEq, Repr, Inhabited

/-- The page-fragment store: the resolved content of pages/page(i).html for
the 1-based page number i, after the direct and the alternative-name lookup
of template.service.ts lines 56 to 77; none when no fragment is found. -/
def PageStore : Type := Nat → Option String

/-- One entry of the pages array assembled by generateTemplate lines 54 to 86. -/
structure Page where
  index : Nat
  content : String
  hotspots : List Hotspot
  deriving DecidableEq, Repr, Inhabited

/-- JavaScript string truthiness choice: s falsy (empty) picks the fallback.
Used for the expressions page.content parOr placeholder and
h.label parOr h.url of the templates. -/
def jsStrOr (s fallback : String) : String := if s = "" then fallback else s

/-- The entry built for the 0-based position k of the pages array:
1-based index k+1, the stored fragment content or the empty string, and the
hotspots whose pageIndex equals k (template.service.ts lines 79 to 85). -/
def buildPage (store : PageStore) (hotspots : List Hotspot) (k : Nat) : Page :=
  { index := k + 1
    content := Option.getD (store (k + 1)) ("")
    hotspots := hotspots.filter (fun h => h.pageIndex == (k : Int)) }

/-- The pages array read by generateTemplate lines 54 to 86, for 1-based page
numbers 1 to pageCount. -/
def buildPages (pageCount : Nat) (store : PageStore) (hotspots : List Hotspot) : List Page :=
  (List.range pageCount).map (buildPage store hotspots)

/-- The class suffix marking a locked page, from the expression
leadGen.enabled and idx at least leadGen.freePages of template.service.ts
lines 361, 776 and 1220. -/
def lockedBlurClass (lg : LeadGenConfig) (idx : Nat) : String :=
  if lg.enabled = true ∧ lg.freePages ≤ (idx : Int) then " locked-blur" else ""

/-- The active class suffix for the first slide, dot or toc entry. -/
def activeClass (idx : Nat) : String := if idx = 0 then " active" else ""

/-- The hotspot overlay anchor of the presentation template, lines 363 to 369:
href and title are HTML-escaped, the title text falls back from label to url. -/
def presHotspotHtml (h : Hotspot) : String :=
  presHs0 ++ escapeHtml h.url ++ presHs1 ++ intStr h.top ++ presHs2 ++ intStr h.left
    ++ presHs3 ++ intStr h.width ++ presHs4 ++ intStr h.height ++ presHs5
    ++ escapeHtml (jsStrOr (Option.getD h.label ("")) h.url) ++ presHs6

/-- The placeholder substituted for a page with no fragment content in the
presentation template, line 362. -/
def presPlaceholder (i : Nat) : String := presP0 ++ natStr i ++ presP1

/-- One slide of the presentation template, lines 359 to 372. -/
def presSlideBlock (lg : LeadGenConfig) (idx : Nat) (p : Page) : String :=
  presS0 ++ activeClass idx ++ presS1 ++ natStr idx ++ presS2 ++ lockedBlurClass lg idx
    ++ presS3 ++ jsStrOr p.content (presPlaceholder p.index) ++ presS4
    ++ String.join (p.hotspots.map presHotspotHtml) ++ presS5

/-- One progress dot of the presentation template, lines 378 to 380. -/
def presDot (idx : Nat) : String :=
  presD0 ++ activeClass idx ++ presD1 ++ natStr idx ++ presD2

/-- The disabled attribute of the previous and next buttons, lines 376 and 383. -/
def disabledAttr (n : Nat) : String := if n ≤ 1 then "disabled" else ""

/-- The lead-gate overlay of the presentation template, lines 387 to 406:
present exactly when leadGen.enabled. -/
def presGateChunk (lg : LeadGenConfig) (n : Nat) : String :=
  if lg.enabled = true then presG0 ++ natStr n ++ presG1 else ""

/-- The slide blocks of the presentation template in page order.  The source
maps over the pages array with its position index; since buildPages lists the
positions 0 to pageCount-1 in order, this equals mapping over the range. -/
def presBlocks (lg : LeadGenConfig) (store : PageStore) (hs : List Hotspot) (n : Nat) :
    List String :=
  (List.range n).map (fun k => presSlideBlock lg k (buildPage store hs k))

/-- The full index.html of the presentation template, lines 114 to 410. -/
def presIndexHtml (opts : TemplateOptions) (store : PageStore) : String :=
  presH0 ++ escapeHtml opts.title ++ presH1 ++ Option.getD opts.customCss ("") ++ presH2
    ++ String.join (presBlocks opts.leadGen store opts.hotspots opts.pageCount)
    ++ presH3 ++ disabledAttr opts.pageCount ++ presH4
    ++ String.join ((List.range opts.pageCount).map presDot)
    ++ presH5 ++ natStr opts.pageCount ++ presH6 ++ disabledAttr opts.pageCount ++ presH7
    ++ presGateChunk opts.leadGen opts.pageCount ++ presH8

/-- The fixed localStorage read of the viewer unlock state shared by all
three runtime scripts (template.service.ts lines 426, 836 and 1280). -/
def lsGetUnlocked : String := "localStorage.getItem(\x27unlocked\x27)"

/-- The fixed localStorage write of the viewer unlock state shared by all
three runtime scripts (template.service.ts lines 509, 888 and 1326). -/
def lsSetUnlocked : String := "localStorage.setItem(\x27unlocked\x27, \x27true\x27)"

/-- The webhook submission chunk of js/navigation.js, lines 519 to 525:
emitted only for a truthy webhookUrl, which is interpolated verbatim. -/
def navWebhookChunk (lg : LeadGenConfig) : String :=
  match lg.webhookUrl with
  | some u => if u = "" then "" else navW0 ++ u ++ navW1
  | none => ""

/-- The generated js/navigation.js of the presentation template,
lines 416 to 529. -/
def navigationJs (lg : LeadGenConfig) : String :=
  navJ0 ++ jsBool lg.enabled ++ navJ1 ++ intStr lg.freePages ++ navJ2 ++ lsGetUnlocked
    ++ navJ3 ++ lsSetUnlocked ++ navJ4 ++ navWebhookChunk lg ++ navJ5

/-- The output tree written by generatePresentationTemplate: index.html,
js/navigation.js and assets/template.css, as relative path and content. -/
def presOutput (opts : TemplateOptions) (store : PageStore) : List (String × String) :=
  [("index.html", presIndexHtml opts store),
   ("js/navigation.js", navigationJs opts.leadGen),
   ("assets/template.css", presCssT0)]

/-- The hotspot overlay anchor of the flipbook template, lines 781 to 786:
href is HTML-escaped; no title attribute is emitted. -/
def flipHotspotHtml (h : Hotspot) : String :=
  flipHsp0 ++ escapeHtml h.url ++ flipHsp1 ++ intStr h.top ++ flipHsp2 ++ intStr h.left
    ++ flipHsp3 ++ intStr h.width ++ flipHsp4 ++ intStr h.height ++ flipHsp5

/-- The placeholder substituted for a page with no fragment content in the
flipbook template, line 778. -/
def flipPlaceholder (i : Nat) : String := flipP0 ++ natStr i ++ flipP1

/-- One leaf of the flipbook template, lines 774 to 792; n is the total page
count used for the z-index stacking. -/
def flipPageBlock (lg : LeadGenConfig) (n idx : Nat) (p : Page) : String :=
  flipS0 ++ natStr idx ++ flipS1 ++ natStr (n - idx) ++ flipS2 ++ lockedBlurClass lg idx
    ++ flipS3 ++ jsStrOr p.content (flipPlaceholder p.index) ++ flipS4 ++ natStr p.index
    ++ flipS5 ++ String.join (p.hotspots.map flipHotspotHtml) ++ flipS6 ++ natStr p.index
    ++ flipS7

/-- The lead-gate overlay of the flipbook template, lines 802 to 818. -/
def flipGateChunk (lg : LeadGenConfig) : String :=
  if lg.enabled = true then flipG0 else ""

/-- The leaf blocks of the flipbook template in page order. -/
def flipBlocks (lg : LeadGenConfig) (store : PageStore) (hs : List Hotspot) (n : Nat) :
    List String :=
  (List.range n).map (fun k => flipPageBlock lg n k (buildPage store hs k))

/-- The full index.html of the flipbook template, lines 550 to 822. -/
def flipIndexHtml (opts : TemplateOptions) (store : PageStore) : String :=
  flipH0 ++ escapeHtml opts.title ++ flipH1 ++ Option.getD opts.customCss ("") ++ flipH2
    ++ escapeHtml opts.title ++ flipH3
    ++ String.join (flipBlocks opts.leadGen store opts.hotspots opts.pageCount)
    ++ flipH4 ++ natStr opts.pageCount ++ flipH5
    ++ flipGateChunk opts.leadGen ++ flipH6

/-- The generated js/flipbook.js, lines 827 to 897. -/
def flipbookJs (lg : LeadGenConfig) : String :=
  flipJ0 ++ jsBool lg.enabled ++ flipJ1 ++ intStr lg.freePages ++ flipJ2 ++ lsGetUnlocked
    ++ flipJ3 ++ lsSetUnlocked ++ flipJ4

/-- The output tree written by generateFlipbookTemplate. -/
def flipOutput (opts : TemplateOptions) (store : PageStore) : List (String × String) :=
  [("index.html", flipIndexHtml opts store),
   ("js/flipbook.js", flipbookJs opts.leadGen)]

/-- The class suffix marking a locked documentation section, line 1220. -/
def lockedSectionClass (lg : LeadGenConfig) (idx : Nat) : String :=
  if lg.enabled = true ∧ lg.freePages ≤ (idx : Int) then " locked-section" else ""

/-- One table-of-contents entry of the documentation template,
lines 1202 to 1208, labeled with the 1-based page index. -/
def docTocItem (idx : Nat) (p : Page) : String :=
  docT0 ++ natStr idx ++ docT1 ++ activeClass idx ++ docT2 ++ natStr idx ++ docT3
    ++ natStr p.index ++ docT4

/-- The hotspot overlay anchor of the documentation template,
lines 1227 to 1232. -/
def docHotspotHtml (h : Hotspot) : String :=
  docHsp0 ++ escapeHtml h.url ++ docHsp1 ++ intStr h.top ++ docHsp2 ++ intStr h.left
    ++ docHsp3 ++ intStr h.width ++ docHsp4 ++ intStr h.height ++ docHsp5

/-- The placeholder substituted for a page with no fragment content in the
documentation template, line 1226. -/
def docPlaceholder (i : Nat) : String := docP0 ++ natStr i ++ docP1

/-- The per-section lock overlay of the documentation template,
lines 1234 to 1244, emitted only for gated sections. -/
def docLockOverlayChunk (lg : LeadGenConfig) (idx : Nat) : String :=
  if lg.enabled = true ∧ lg.freePages ≤ (idx : Int) then docL0 else ""

/-- One section of the documentation template, lines 1219 to 1246. -/
def docSectionBlock (lg : LeadGenConfig) (idx : Nat) (p : Page) : String :=
  docS0 ++ lockedSectionClass lg idx ++ docS1 ++ natStr idx ++ docS2 ++ natStr p.index
    ++ docS3 ++ natStr p.index ++ docS4 ++ jsStrOr p.content (docPlaceholder p.index)
    ++ docS5 ++ String.join (p.hotspots.map docHotspotHtml) ++ docS6
    ++ docLockOverlayChunk lg idx ++ docS7

/-- The lead-gate overlay of the documentation template, lines 1250 to 1266. -/
def docGateChunk (lg : LeadGenConfig) : String :=
  if lg.enabled = true then docG0 else ""

/-- The section blocks of the documentation template in page order. -/
def docBlocks (lg : LeadGenConfig) (store : PageStore) (hs : List Hotspot) (n : Nat) :
    List String :=
  (List.range n).map (fun k => docSectionBlock lg k (buildPage store hs k))

/-- The table-of-contents entries of the documentation template in page order. -/
def docTocItems (store : PageStore) (hs : List Hotspot) (n : Nat) : List String :=
  (List.range n).map (fun k => docTocItem k (buildPage store hs k))

/-- The full index.html of the documentation template, lines 912 to 1270. -/
def docIndexHtml (opts : TemplateOptions) (store : PageStore) : String :=
  docH0 ++ escapeHtml opts.title ++ docH1 ++ Option.getD opts.customCss ("") ++ docH2
    ++ escapeHtml opts.title ++ docH3
    ++ String.join (docTocItems store opts.hotspots opts.pageCount)
    ++ docH4 ++ escapeHtml opts.title ++ docH5 ++ natStr opts.pageCount ++ docH6
    ++ String.join (docBlocks opts.leadGen store opts.hotspots opts.pageCount)
    ++ docH7 ++ docGateChunk opts.leadGen ++ docH8

/-- The generated js/documentation.js, lines 1275 to 1337. -/
def documentationJs (lg : LeadGenConfig) : String :=
  docJ0 ++ jsBool lg.enabled ++ docJ1 ++ lsGetUnlocked ++ docJ2 ++ lsSetUnlocked ++ docJ3

/-- The output tree written by generateDocumentationTemplate. -/
def docOutput (opts : TemplateOptions) (store : PageStore) : List (String × String) :=
  [("index.html", docIndexHtml opts store),
   ("js/documentation.js", documentationJs opts.leadGen)]

/-- Embedding of generateTemplate, template.service.ts lines 41 to 102: build
the pages array, then dispatch on the template string; any string other than
the three known names takes the default branch, which renders the
presentation variant.  The result is the output tree as relative paths and
file contents; the page store stands for the pages directory on disk. -/
def generateTemplate (opts : TemplateOptions) (store : PageStore) : List (String × String) :=
  if opts.template = "presentation" then presOutput opts store
  else if opts.template = "flipbook" then flipOutput opts store
  else if opts.template = "documentation" then docOutput opts store
  else presOutput opts store

/-- Navigation state of the presentation runtime script: the 0-based slide
cursor, whether the lead-gate overlay is showing, and whether the viewer has
unlocked the gate. -/
structure PresState where
  currentIndex : Nat
  gateOpen : Bool
  unlocked : Bool
  deriving DecidableEq, Repr, Inhabited

/-- The goToSlide function of js/navigation.js (template.service.ts lines 428
to 454): out-of-bounds targets are ignored; with the gate enabled, the viewer
locked and a target at or past freePages, the gate overlay is shown and the
cursor does not move; otherwise the cursor moves to the target. -/
def goToSlide (enabled : Bool) (freePages : Int) (slides : Nat) (s : PresState)
    (index : Int) : PresState :=
  if index < 0 ∨ (slides : Int) ≤ index then s
  else if enabled = true ∧ s.unlocked = false ∧ freePages ≤ index then
    { s with gateOpen := true }
  else { s with currentIndex := index.toNat }

/-- Navigation state of the flipbook runtime script: the 0-based page cursor,
the per-leaf flipped flags, the gate overlay flag and the unlock flag. -/
structure FlipState where
  currentPage : Nat
  flipped : Nat → Bool
  gateOpen : Bool
  unlocked : Bool

/-- Set the flipped flag of every leaf with position in [lo, hi) to b,
matching the update loops of flipTo (template.service.ts lines 852 to 860). -/
def flipRange (f : Nat → Bool) (lo hi : Nat) (b : Bool) : Nat → Bool :=
  fun i => if lo ≤ i ∧ i < hi then b else f i

/-- The flipTo function of js/flipbook.js (template.service.ts lines 844 to
864): bounds check, then the gate check, then flip the leaves between the old
and the new cursor and move the cursor. -/
def flipTo (enabled : Bool) (freePages : Int) (pages : Nat) (s : FlipState)
    (index : Int) : FlipState :=
  if index < 0 ∨ (pages : Int) ≤ index then s
  else if enabled = true ∧ s.unlocked = false ∧ freePages ≤ index then
    { s with gateOpen := true }
  else
    { s with
      currentPage := index.toNat
      flipped :=
        if s.currentPage < index.toNat then
          flipRange s.flipped s.currentPage index.toNat true
        else flipRange s.flipped index.toNat s.currentPage false }

/-- Navigation state of the documentation runtime: the section last scrolled
to, the gate overlay flag and the unlock flag.  The scroll-derived active
link is recomputed from scroll position and carries no state of its own. -/
structure DocState where
  scrolledTo : Option Nat
  gateOpen : Bool
  unlocked : Bool
  deriving DecidableEq, Repr, Inhabited

/-- The click handler installed on every table-of-contents link by
js/documentation.js (template.service.ts lines 1283 to 1289): prevent the
default action and scroll the target section into view.  It performs no gate
check and never opens the gate overlay. -/
def docTocClick (s : DocState) (idx : Nat) : DocState :=
  { s with scrolledTo := some idx }

/-- The inline click handler of the Unlock Now button inside a locked
documentation section (template.service.ts line 1239): open the gate
overlay. -/
def docUnlockBtnClick (s : DocState) : DocState :=
  { s with gateOpen := true }

/-- The per-origin browser localStorage visible to every generated site
served from that origin. -/
def LocalStorage : Type := String → Option String

/-- The fixed key under which every generated runtime script persists the
viewer unlock state; it does not mention the job, the title or the
template. -/
def unlockedKey : String := "unlocked"

/-- The unlock-state read performed when a generated runtime script starts
(template.service.ts lines 426, 836 and 1280). -/
def readUnlocked (ls : LocalStorage) : Bool := ls unlockedKey == some "true"

/-- The localStorage effect of submitting the lead-gate form in any generated
site (template.service.ts lines 509, 888 and 1326): store true under the
fixed key. -/
def submitGate (ls : LocalStorage) : LocalStorage :=
  fun k => if k = unlockedKey then some "true" else ls k

/-- JavaScript number-truthiness choice for a parOr b: an absent or zero
left operand picks the right operand (src/unnamed/part_005 line 38). -/
def jsNumOr (a b : Option Int) : Option Int :=
  match a with
  | some n => if n = 0 then b else some n
  | none => b

/-- Page-count resolution of the generate route, src/unnamed/part_005 lines
37 to 52: take the request-body value, else the recorded job value; when the
result is absent, zero or exactly one, re-detect from the count of page
images in the assets directory (disk is none when that directory does not
exist, otherwise the number of matching pageN.png files, used only when
positive); finally an absent or zero result falls back to the constant 1. -/
def resolvePageCount (requested jobPageCount : Option Int) (disk : Option Nat) : Int :=
  let f := jsNumOr requested jobPageCount
  let g :=
    if f = none ∨ f = some 0 ∨ f = some 1 then
      match disk with
      | some d => if 0 < d then some ((d : Int)) else f
      | none => f
    else f
  match g with
  | some n => if n = 0 then 1 else n
  | none => 1

/-- The server file system seen by one generation run: the page-fragment
store under pages/, and the other files of the output directory by relative
path. -/
structure ServerFS where
  pageFile : PageStore
  outFile : String → Option String

/-- First entry of the output tree at a given path. -/
def lookupTree : List (String × String) → String → Option String
  | [], _ => none
  | e :: rest, q => if q = e.1 then some e.2 else lookupTree rest q

/-- Writing the output tree: each writeFileSync call replaces the named file
whole, leaving every other file unchanged. -/
def writeTree (fs : ServerFS) (t : List (String × String)) : ServerFS :=
  { fs with
    outFile := fun p =>
      match lookupTree t p with
      | some c => some c
      | none => fs.outFile p }

/-- One run of generateTemplate against the server file system: read the
page fragments, write the generated output tree. -/
def runGenerate (opts : TemplateOptions) (fs : ServerFS) : ServerFS :=
  writeTree fs (generateTemplate opts fs.pageFile)

/-- Decimal digit test on characters. -/
def isDigitC (c : Char) : Bool := decide (48 ≤ c.toNat ∧ c.toNat ≤ 57)

/-- pat occurs as a contiguous substring of s. -/
def containsSub (s pat : String) : Prop := pat.data <:+: s.data


/-- Example lead-gate configuration with the gate disabled. -/
def lgOff : LeadGenConfig :=
  { enabled := false, freePages := 3, fields := none, webhookUrl := none }

/-- Example lead-gate configuration with the gate enabled and the given
number of free pages. -/
def lgOn (fp : Int) : LeadGenConfig :=
  { enabled := true, freePages := fp, fields := none, webhookUrl := none }

/-- Example page store holding content for page 1 only. -/
def storeHi : PageStore := fun i => if i = 1 then some ("<p>Hi</p>") else none

/-- Example page store holding no fragments at all. -/
def storeEmpty : PageStore := fun _ => none

/-- Example template options with the given template name, page count and
gate configuration. -/
def demoOpts (tpl : String) (n : Nat) (lg : LeadGenConfig) : TemplateOptions :=
  { jobId := "job1", outputDir := "out", template := tpl, title := "Demo",
    pageCount := n, hotspots := [], leadGen := lg, customCss := none }

/-- Example hotspot on page 0 without a label. -/
def demoHotspot : Hotspot :=
  { id := "h1", pageIndex := 0, top := 10, left := 20, width := 30, height := 5,
    url := "https://example.com/a", label := none }

/-- Prefix of presP0 before the placeholder paragraph text. -/
def presP0a : String := "<div class=\"pdf-page\">"

/-- Prefix of presS1 before the data-index attribute text. -/
def presS1a : String := "\" "

/-- Suffix of presS2 after the closing quote of the data-index attribute. -/
def presS2b : String := ">\n          <div class=\"slide-content"

/-- Prefix of flipS4 before the page-number span. -/
def flipS4a : String := "\n            </div>\n            "

/-- Suffix of flipS5 after the closing span tag. -/
def flipS5b : String := "\n            "

/-- Prefix of docS2 before the section-number span. -/
def docS2a : String := "\">\n          <h2 class=\"section-title\">\n            "

/-- Suffix of docS3 after the closing span tag. -/
def docS3b : String := "\n            Page "

/-- Prefix of docS3 before the visible page label of the section title. -/
def docS3c : String := "</span>\n            "

/-- Prefix of docT3 before the visible page label of the toc entry. -/
def docT3a : String := "\">\n                "

/-- The opening tag of the lead-gate form, common to the three gate
overlays. -/
def formMarker : String := "<form id=\"leadGenForm\">"

theorem replaceChar_append (c : Char) (rep a b : List Char) :
    replaceChar c rep (a ++ b) = replaceChar c rep a ++ replaceChar c rep b := by
  induction a with
  | nil => simp [replaceChar]
  | cons x xs ih => simp [replaceChar, ih]

theorem escapeHtmlData_nil : escapeHtmlData [] = [] := rfl

theorem escapeHtmlData_cons (c : Char) (s : List Char) :
    escapeHtmlData (c :: s) = escChar c ++ escapeHtmlData s := by
  have h0 : replaceChar ampC ("&amp;".data) (c :: s) =
      (if c = ampC then ("&amp;".data) else [c]) ++ replaceChar ampC ("&amp;".data) s := rfl
  simp only [escapeHtmlData] at *
  rw [h0, replaceChar_append, replaceChar_append, replaceChar_append, replaceChar_append]
  congr 1
  by_cases hamp : c = ampC
  · subst hamp; decide
  · by_cases hlt : c = ltC
    · subst hlt
      rw [if_neg hamp]
      decide
    · by_cases hgt : c = gtC
      · subst hgt
        rw [if_neg hamp]
        decide
      · by_cases hq : c = quotC
        · subst hq
          rw [if_neg hamp]
          decide
        · by_cases hap : c = aposC
          · subst hap
            rw [if_neg hamp]
            decide
          · simp [replaceChar, escChar, hamp, hlt, hgt, hq, hap]


theorem natDigitsF_digits :
    ∀ fuel n, n < fuel → ∀ c ∈ natDigitsF fuel n, isDigitC c = true := by
  intro fuel
  induction fuel with
  | zero => intro n hn; omega
  | succ f ih =>
    intro n hn c hc
    by_cases h10 : n < 10
    · simp only [natDigitsF, if_pos h10, List.mem_singleton] at hc
      subst hc
      interval_cases n <;> decide
    · simp only [natDigitsF, if_neg h10, List.mem_append, List.mem_singleton] at hc
      rcases hc with hc | hc
      · have hdiv : n / 10 < n := Nat.div_lt_self (by omega) (by omega)
        exact ih (n / 10) (by omega) c hc
      · subst hc
        have hm : n % 10 < 10 := Nat.mod_lt _ (by omega)
        set m := n % 10 with hmdef
        interval_cases m <;> decide

theorem natDigits_digits (n : Nat) : ∀ c ∈ natDigits n, isDigitC c = true :=
  natDigitsF_digits (n + 1) n (Nat.lt_succ_self n)

theorem natDigitsF_ne_nil : ∀ fuel n, n < fuel → natDigitsF fuel n ≠ [] := by
  intro fuel
  induction fuel with
  | zero => intro n hn; omega
  | succ f ih =>
    intro n hn
    by_cases h10 : n < 10 <;> simp [natDigitsF, h10]

theorem natDigits_ne_nil (n : Nat) : natDigits n ≠ [] :=
  natDigitsF_ne_nil (n + 1) n (Nat.lt_succ_self n)

theorem natStr_data (n : Nat) : (natStr n).data = natDigits n := rfl

theorem listStarts_sep (pat : List Char) :
    ∀ (a : List Char) (mid b : List Char), mid ≠ [] →
      (∀ c ∈ mid, isDigitC c = true) → (∀ c ∈ pat, isDigitC c = false) →
      listStarts pat (a ++ mid ++ b) = listStarts pat a := by
  induction pat with
  | nil => intro a mid b _ _ _; simp [listStarts]
  | cons p ps ih =>
    intro a mid b hmid hm hp
    cases a with
    | nil =>
      cases mid with
      | nil => exact absurd rfl hmid
      | cons m ms =>
        have hpm : p ≠ m := by
          intro he
          have h1 := hp p (List.mem_cons_self p ps)
          rw [he, hm m (List.mem_cons_self m ms)] at h1
          exact absurd h1 (by decide)
        show (decide (p = m) && listStarts ps (ms ++ b)) = false
        simp [hpm]
    | cons x xs =>
      show (decide (p = x) && listStarts ps (xs ++ mid ++ b)) =
        (decide (p = x) && listStarts ps xs)
      rw [ih xs mid b hmid hm (fun c hc => hp c (List.mem_cons_of_mem p hc))]

theorem countOccs_sep_left (pat : List Char) (hpat : pat ≠ []) :
    ∀ (mid b : List Char), (∀ c ∈ mid, isDigitC c = true) →
      (∀ c ∈ pat, isDigitC c = false) →
      countOccs pat (mid ++ b) = countOccs pat b := by
  intro mid
  induction mid with
  | nil => intro b _ _; rfl
  | cons m ms ih =>
    intro b hm hp
    cases pat with
    | nil => exact absurd rfl hpat
    | cons p ps =>
      have hpm : p ≠ m := by
        intro he
        have h1 := hp p (List.mem_cons_self p ps)
        rw [he, hm m (List.mem_cons_self m ms)] at h1
        exact absurd h1 (by decide)
      have hlp : listStarts (p :: ps) (m :: (ms ++ b)) = false := by
        show (decide (p = m) && listStarts ps (ms ++ b)) = false
        simp [hpm]
      show (if listStarts (p :: ps) (m :: (ms ++ b)) = true then 1 else 0)
          + countOccs (p :: ps) (ms ++ b) = countOccs (p :: ps) b
      rw [hlp]
      simp only [Bool.false_eq_true, if_false, Nat.zero_add]
      exact ih b (fun c hc => hm c (List.mem_cons_of_mem m hc)) hp

theorem countOccs_sep (pat : List Char) (hpat : pat ≠ []) :
    ∀ (a mid b : List Char), mid ≠ [] →
      (∀ c ∈ mid, isDigitC c = true) → (∀ c ∈ pat, isDigitC c = false) →
      countOccs pat (a ++ mid ++ b) = countOccs pat a + countOccs pat b := by
  intro a
  induction a with
  | nil =>
    intro mid b hmid hm hp
    show countOccs pat (mid ++ b) = countOccs pat [] + countOccs pat b
    rw [countOccs_sep_left pat hpat mid b hm hp,
      show countOccs pat [] = 0 from rfl]
    omega
  | cons x xs ih =>
    intro mid b hmid hm hp
    have h1 : listStarts pat (x :: (xs ++ mid ++ b)) = listStarts pat (x :: xs) := by
      have h2 := listStarts_sep pat (x :: xs) mid b hmid hm hp
      exact h2
    show (if listStarts pat (x :: (xs ++ mid ++ b)) = true then 1 else 0)
        + countOccs pat (xs ++ mid ++ b) =
      ((if listStarts pat (x :: xs) = true then 1 else 0) + countOccs pat xs)
        + countOccs pat b
    rw [h1, ih mid b hmid hm hp]
    omega

theorem strAppend_assoc (a b c : String) : (a ++ b) ++ c = a ++ (b ++ c) :=
  String.ext (by simp)

theorem containsSub_appendL (t : String) {s pat : String} (h : containsSub s pat) :
    containsSub (t ++ s) pat := by
  obtain ⟨u, v, huv⟩ := h
  refine ⟨t.data ++ u, v, ?_⟩
  rw [String.data_append, ← huv]
  simp [List.append_assoc]

theorem containsSub_appendR (t : String) {s pat : String} (h : containsSub s pat) :
    containsSub (s ++ t) pat := by
  obtain ⟨u, v, huv⟩ := h
  refine ⟨u, v ++ t.data, ?_⟩
  rw [String.data_append, ← huv]
  simp [List.append_assoc]

theorem containsSub_head {pat rest : String} : containsSub (pat ++ rest) pat := by
  refine ⟨[], rest.data, ?_⟩
  rw [String.data_append]
  simp

theorem containsSub_congr {s s' pat : String} (h : s = s') (h2 : containsSub s' pat) :
    containsSub s pat := h ▸ h2


theorem getD_range_map {α : Type} (f : Nat → α) (d : α) {n k : Nat} (hk : k < n) :
    ((List.range n).map f).getD k d = f k := by
  rw [List.getD_eq_getElem?_getD, List.getElem?_map, List.getElem?_range hk]
  rfl

theorem length_buildPages (n : Nat) (store : PageStore) (hs : List Hotspot) :
    (buildPages n store hs).length = n := by
  simp [buildPages]

/-- C5: a hotspot whose pageIndex lies outside the interval from 0 to
pageCount - 1 is attached to no entry of the pages array, hence no overlay is
emitted for it in any variant; an in-range hotspot is attached exactly to the
page whose 0-based index equals its pageIndex; the pages array always has
exactly pageCount entries, so generation succeeds regardless. -/
theorem claim_C5 (n : Nat) (store : PageStore) (hs : List Hotspot) (h : Hotspot)
    (k : Nat) (hk : k < n) :
    ((h.pageIndex < 0 ∨ (n : Int) ≤ h.pageIndex) →
      ∀ p ∈ buildPages n store hs, h ∉ p.hotspots) ∧
    (h ∈ ((buildPages n store hs).getD k default).hotspots ↔
      h ∈ hs ∧ h.pageIndex = (k : Int)) ∧
    (buildPages n store hs).length = n := by
  refine ⟨?_, ?_, by simp [buildPages]⟩
  · intro hrange p hp hmem
    simp only [buildPages, List.mem_map, List.mem_range] at hp
    obtain ⟨j, hj, rfl⟩ := hp
    simp only [buildPage, List.mem_filter] at hmem
    have h2 : h.pageIndex = (j : Int) := by
      have := hmem.2
      rwa [beq_iff_eq] at this
    rcases hrange with hlt | hge
    · rw [h2] at hlt; omega
    · rw [h2] at hge; omega
  · simp only [buildPages]
    rw [getD_range_map (buildPage store hs) default hk]
    simp [buildPage, List.mem_filter, beq_iff_eq]

/-- C5 witness at a concrete in-range hotspot. -/
theorem claim_C5_witness :
    ((demoHotspot.pageIndex < 0 ∨ (2 : Int) ≤ demoHotspot.pageIndex) →
      ∀ p ∈ buildPages 2 storeEmpty [demoHotspot], demoHotspot ∉ p.hotspots) ∧
    (demoHotspot ∈ ((buildPages 2 storeEmpty [demoHotspot]).getD 0 default).hotspots ↔
      demoHotspot ∈ [demoHotspot] ∧ demoHotspot.pageIndex = ((0 : Nat) : Int)) ∧
    (buildPages 2 storeEmpty [demoHotspot]).length = 2 :=
  claim_C5 2 storeEmpty [demoHotspot] demoHotspot 0 (by decide)

/-- C6 counterexample: in the documentation runtime with the gate enabled,
freePages 1 and a locked viewer, clicking the table-of-contents link of the
locked section 1 scrolls to that section and does not open the gate form:
the navigation state changes and the gate stays closed, contrary to the
claimed interception for all three variants. -/
theorem claim_C6_counterexample :
    docTocClick ⟨none, false, false⟩ 1 = ⟨some 1, false, false⟩ ∧
    docTocClick ⟨none, false, false⟩ 1 ≠
      { (⟨none, false, false⟩ : DocState) with gateOpen := true } := by
  constructor
  · rfl
  · decide

/-- C6 amended: in the presentation and flipbook runtimes, while the gate is
enabled and the viewer locked, any navigation step targeting an in-bounds
page with 0-based index at least freePages opens the gate overlay and leaves
the rest of the navigation state unchanged; the documentation runtime does
not intercept table-of-contents navigation (see the counterexample). -/
theorem claim_C6 (fp : Int) (n : Nat) (s : PresState) (fs : FlipState) (i : Int)
    (hs1 : s.unlocked = false) (hf1 : fs.unlocked = false)
    (h0 : 0 ≤ i) (h1 : i < (n : Int)) (h2 : fp ≤ i) :
    goToSlide true fp n s i = { s with gateOpen := true } ∧
    flipTo true fp n fs i = { fs with gateOpen := true } := by
  constructor
  · unfold goToSlide
    rw [if_neg (by omega), if_pos ⟨rfl, hs1, h2⟩]
  · unfold flipTo
    rw [if_neg (by omega), if_pos ⟨rfl, hf1, h2⟩]

/-- C6 witness at a concrete locked navigation attempt. -/
theorem claim_C6_witness :
    goToSlide true 1 3 ⟨0, false, false⟩ 2 =
      { (⟨0, false, false⟩ : PresState) with gateOpen := true } ∧
    flipTo true 1 3 ⟨0, (fun _ => false), false, false⟩ 2 =
      { (⟨0, (fun _ => false), false, false⟩ : FlipState) with gateOpen := true } :=
  claim_C6 1 3 ⟨0, false, false⟩ ⟨0, (fun _ => false), false, false⟩ 2
    rfl rfl (by decide) (by decide) (by decide)

/-- C7 counterexample: an explicit request page count of 1 is overridden by
the on-disk page-image count (3 here), contradicting the claim that an
explicit request value is never overridden by a later source. -/
theorem claim_C7_counterexample :
    resolvePageCount (some 1) none (some 3) = 3 ∧
    resolvePageCount (some 1) none (some 3) ≠ 1 := by decide

/-- C7 amended: the resolution precedence is request value, then recorded job
value, then on-disk count, then the constant 1, except that a resolved value
of 1 (or an absent or zero value) triggers re-detection from disk: a positive
on-disk count then overrides it.  An explicit request value other than 0 and
1 is always used. -/
theorem claim_C7 :
    (∀ (r : Int) (j : Option Int) (d : Option Nat), r ≠ 0 → r ≠ 1 →
      resolvePageCount (some r) j d = r) ∧
    (∀ (m : Int) (d : Option Nat), m ≠ 0 → m ≠ 1 →
      resolvePageCount none (some m) d = m ∧
      resolvePageCount (some 0) (some m) d = m) ∧
    (∀ (j : Option Int) (d : Nat), 0 < d →
      resolvePageCount none none (some d) = (d : Int) ∧
      resolvePageCount (some 1) j (some d) = (d : Int)) ∧
    (resolvePageCount none none none = 1 ∧
      resolvePageCount none none (some 0) = 1) := by
  refine ⟨?_, ?_, ?_, by decide, by decide⟩
  · intro r j d h0 h1
    simp [resolvePageCount, jsNumOr, h0, h1]
  · intro m d h0 h1
    constructor <;> simp [resolvePageCount, jsNumOr, h0, h1]
  · intro j d hd
    have hdz : ((d : Int)) ≠ 0 := by omega
    constructor
    · simp [resolvePageCount, jsNumOr, hdz, hd]
    · simp [resolvePageCount, jsNumOr, hdz, hd]

/-- C7 witness at concrete resolution inputs. -/
theorem claim_C7_witness :
    resolvePageCount (some 5) (some 2) (some 7) = 5 ∧
    resolvePageCount none (some 4) (some 7) = 4 ∧
    resolvePageCount none none (some 7) = 7 ∧
    resolvePageCount (some 1) (some 4) (some 7) = 7 :=
  ⟨(claim_C7.1 5 (some 2) (some 7) (by decide) (by decide)),
   ((claim_C7.2.1 4 (some 7) (by decide) (by decide)).1),
   ((claim_C7.2.2.1 none 7 (by decide)).1),
   ((claim_C7.2.2.1 (some 4) 7 (by decide)).2)⟩

/-- C8: any template name other than the three known ones renders exactly the
presentation output for the same job. -/
theorem claim_C8 (opts : TemplateOptions) (store : PageStore)
    (h1 : opts.template ≠ "presentation") (h2 : opts.template ≠ "flipbook")
    (h3 : opts.template ≠ "documentation") :
    generateTemplate opts store =
      generateTemplate { opts with template := "presentation" } store := by
  unfold generateTemplate
  rw [if_neg h1, if_neg h2, if_neg h3,
    if_pos (show ({ opts with template := "presentation" } :
      TemplateOptions).template = "presentation" from rfl)]
  rfl

/-- C8 witness at the unknown template name fancy. -/
theorem claim_C8_witness :
    generateTemplate (demoOpts ("fancy") 1 lgOff) storeHi =
      generateTemplate
        { demoOpts ("fancy") 1 lgOff with template := "presentation" } storeHi :=
  claim_C8 (demoOpts ("fancy") 1 lgOff) storeHi (by decide) (by decide) (by decide)

/-- C9: one generation run writes only the output files and leaves the page
store untouched, and running the same generation twice yields exactly the
file system of a single run: regeneration is deterministic and idempotent,
with no timestamps or randomness in the model of the emitted tree. -/
theorem claim_C9 (opts : TemplateOptions) (fs : ServerFS) :
    runGenerate opts (runGenerate opts fs) = runGenerate opts fs ∧
    (runGenerate opts fs).pageFile = fs.pageFile := by
  refine ⟨?_, rfl⟩
  cases fs with
  | mk pf out =>
    simp only [runGenerate, writeTree]
    congr 1
    funext p
    cases hl : lookupTree (generateTemplate opts pf) p <;> simp [hl]

theorem escapeHtml_no_specials (s : List Char) :
    ∀ c ∈ escapeHtmlData s, c ≠ ltC ∧ c ≠ gtC ∧ c ≠ quotC ∧ c ≠ aposC := by
  induction s with
  | nil =>
    intro c hc
    rw [escapeHtmlData_nil] at hc
    exact absurd hc (List.not_mem_nil c)
  | cons d rest ih =>
    intro c hc
    rw [escapeHtmlData_cons] at hc
    rcases List.mem_append.mp hc with h | h
    · have hAmp : ∀ c ∈ ("&amp;".data), c ≠ ltC ∧ c ≠ gtC ∧ c ≠ quotC ∧ c ≠ aposC := by decide
      have hLt : ∀ c ∈ ("&lt;".data), c ≠ ltC ∧ c ≠ gtC ∧ c ≠ quotC ∧ c ≠ aposC := by decide
      have hGt : ∀ c ∈ ("&gt;".data), c ≠ ltC ∧ c ≠ gtC ∧ c ≠ quotC ∧ c ≠ aposC := by decide
      have hQ : ∀ c ∈ ("&quot;".data), c ≠ ltC ∧ c ≠ gtC ∧ c ≠ quotC ∧ c ≠ aposC := by decide
      have hAp : ∀ c ∈ ("&#039;".data), c ≠ ltC ∧ c ≠ gtC ∧ c ≠ quotC ∧ c ≠ aposC := by decide
      unfold escChar at h
      by_cases h1 : d = ampC
      · rw [if_pos h1] at h; exact hAmp c h
      · rw [if_neg h1] at h
        by_cases h2 : d = ltC
        · rw [if_pos h2] at h; exact hLt c h
        · rw [if_neg h2] at h
          by_cases h3 : d = gtC
          · rw [if_pos h3] at h; exact hGt c h
          · rw [if_neg h3] at h
            by_cases h4 : d = quotC
            · rw [if_pos h4] at h; exact hQ c h
            · rw [if_neg h4] at h
              by_cases h5 : d = aposC
              · rw [if_pos h5] at h; exact hAp c h
              · rw [if_neg h5] at h
                rw [List.mem_singleton] at h
                subst h
                exact ⟨h2, h3, h4, h5⟩
    · exact ih c h

/-- C2: a page whose resolved fragment content is empty renders as a visible
placeholder naming the page with its 1-based number in every variant: the
presentation and flipbook placeholders read Page i, the documentation
placeholder reads Page content i and its section block also carries the
visible label Page i; the blocks lists always have exactly pageCount entries
and dispatch always produces an output tree with an index document, so a
missing fragment never fails generation. -/
theorem claim_C2 (lg : LeadGenConfig) (store : PageStore) (hs : List Hotspot)
    (n k : Nat) (hk : k < n) (hm : Option.getD (store (k + 1)) ("") = "") :
    containsSub ((presBlocks lg store hs n).getD k (""))
      ("<p>Page " ++ natStr (k + 1) ++ "</p>") ∧
    containsSub ((flipBlocks lg store hs n).getD k (""))
      ("<p>Page " ++ natStr (k + 1) ++ "</p>") ∧
    containsSub ((docBlocks lg store hs n).getD k (""))
      ("<p>Page content " ++ natStr (k + 1) ++ "</p>") ∧
    containsSub ((docBlocks lg store hs n).getD k (""))
      ("Page " ++ natStr (k + 1)) ∧
    (presBlocks lg store hs n).length = n ∧
    (flipBlocks lg store hs n).length = n ∧
    (docBlocks lg store hs n).length = n ∧
    (∀ opts : TemplateOptions,
      (lookupTree (generateTemplate opts store) ("index.html")).isSome = true) := by
  have hc : (buildPage store hs k).content = "" := hm
  refine ⟨?_, ?_, ?_, ?_, by simp [presBlocks], by simp [flipBlocks],
    by simp [docBlocks], ?_⟩
  · simp only [presBlocks]
    rw [getD_range_map _ _ hk]
    show containsSub
      (presS0 ++ activeClass k ++ presS1 ++ natStr k ++ presS2 ++ lockedBlurClass lg k
        ++ presS3 ++ jsStrOr (buildPage store hs k).content (presPlaceholder (k + 1))
        ++ presS4 ++ String.join ((buildPage store hs k).hotspots.map presHotspotHtml)
        ++ presS5)
      ("<p>Page " ++ natStr (k + 1) ++ "</p>")
    rw [hc, show jsStrOr ("") (presPlaceholder (k + 1)) = presPlaceholder (k + 1) from rfl]
    refine ⟨(presS0 ++ activeClass k ++ presS1 ++ natStr k ++ presS2
      ++ lockedBlurClass lg k ++ presS3 ++ presP0a).data,
      (("</div>") ++ presS4
        ++ String.join ((buildPage store hs k).hotspots.map presHotspotHtml)
        ++ presS5).data, ?_⟩
    simp only [presPlaceholder, String.data_append, List.append_assoc,
      show presP0.data = presP0a.data ++ ("<p>Page ").data from by decide,
      show presP1.data = ("</p>").data ++ ("</div>").data from by decide]
  · simp only [flipBlocks]
    rw [getD_range_map _ _ hk]
    show containsSub
      (flipS0 ++ natStr k ++ flipS1 ++ natStr (n - k) ++ flipS2 ++ lockedBlurClass lg k
        ++ flipS3 ++ jsStrOr (buildPage store hs k).content (flipPlaceholder (k + 1))
        ++ flipS4 ++ natStr (k + 1) ++ flipS5
        ++ String.join ((buildPage store hs k).hotspots.map flipHotspotHtml)
        ++ flipS6 ++ natStr (k + 1) ++ flipS7)
      ("<p>Page " ++ natStr (k + 1) ++ "</p>")
    rw [hc, show jsStrOr ("") (flipPlaceholder (k + 1)) = flipPlaceholder (k + 1) from rfl]
    refine ⟨(flipS0 ++ natStr k ++ flipS1 ++ natStr (n - k) ++ flipS2
      ++ lockedBlurClass lg k ++ flipS3).data,
      (flipS4 ++ natStr (k + 1) ++ flipS5
        ++ String.join ((buildPage store hs k).hotspots.map flipHotspotHtml)
        ++ flipS6 ++ natStr (k + 1) ++ flipS7).data, ?_⟩
    simp only [flipPlaceholder, String.data_append, List.append_assoc,
      show flipP0.data = ("<p>Page ").data from by decide,
      show flipP1.data = ("</p>").data from by decide]
  · simp only [docBlocks]
    rw [getD_range_map _ _ hk]
    show containsSub
      (docS0 ++ lockedSectionClass lg k ++ docS1 ++ natStr k ++ docS2 ++ natStr (k + 1)
        ++ docS3 ++ natStr (k + 1) ++ docS4
        ++ jsStrOr (buildPage store hs k).content (docPlaceholder (k + 1))
        ++ docS5 ++ String.join ((buildPage store hs k).hotspots.map docHotspotHtml)
        ++ docS6 ++ docLockOverlayChunk lg k ++ docS7)
      ("<p>Page content " ++ natStr (k + 1) ++ "</p>")
    rw [hc, show jsStrOr ("") (docPlaceholder (k + 1)) = docPlaceholder (k + 1) from rfl]
    refine ⟨(docS0 ++ lockedSectionClass lg k ++ docS1 ++ natStr k ++ docS2
      ++ natStr (k + 1) ++ docS3 ++ natStr (k + 1) ++ docS4).data,
      (docS5 ++ String.join ((buildPage store hs k).hotspots.map docHotspotHtml)
        ++ docS6 ++ docLockOverlayChunk lg k ++ docS7).data, ?_⟩
    simp only [docPlaceholder, String.data_append, List.append_assoc,
      show docP0.data = ("<p>Page content ").data from by decide,
      show docP1.data = ("</p>").data from by decide]
  · simp only [docBlocks]
    rw [getD_range_map _ _ hk]
    show containsSub
      (docS0 ++ lockedSectionClass lg k ++ docS1 ++ natStr k ++ docS2 ++ natStr (k + 1)
        ++ docS3 ++ natStr (k + 1) ++ docS4
        ++ jsStrOr (buildPage store hs k).content (docPlaceholder (k + 1))
        ++ docS5 ++ String.join ((buildPage store hs k).hotspots.map docHotspotHtml)
        ++ docS6 ++ docLockOverlayChunk lg k ++ docS7)
      ("Page " ++ natStr (k + 1))
    refine ⟨(docS0 ++ lockedSectionClass lg k ++ docS1 ++ natStr k ++ docS2
      ++ natStr (k + 1) ++ docS3c).data,
      (docS4 ++ jsStrOr (buildPage store hs k).content (docPlaceholder (k + 1))
        ++ docS5 ++ String.join ((buildPage store hs k).hotspots.map docHotspotHtml)
        ++ docS6 ++ docLockOverlayChunk lg k ++ docS7).data, ?_⟩
    simp only [String.data_append, List.append_assoc,
      show docS3.data = docS3c.data ++ ("Page ").data from by decide]
  · intro opts
    unfold generateTemplate
    split
    · rfl
    · split
      · rfl
      · split
        · rfl
        · rfl

/-- C2 witness: page 2 of a two-page job with only page 1 present. -/
theorem claim_C2_witness :
    containsSub ((presBlocks (lgOn 3) storeHi [] 2).getD 1 (""))
      ("<p>Page " ++ natStr 2 ++ "</p>") ∧
    containsSub ((flipBlocks (lgOn 3) storeHi [] 2).getD 1 (""))
      ("<p>Page " ++ natStr 2 ++ "</p>") ∧
    containsSub ((docBlocks (lgOn 3) storeHi [] 2).getD 1 (""))
      ("<p>Page content " ++ natStr 2 ++ "</p>") ∧
    containsSub ((docBlocks (lgOn 3) storeHi [] 2).getD 1 (""))
      ("Page " ++ natStr 2) ∧
    (presBlocks (lgOn 3) storeHi [] 2).length = 2 ∧
    (flipBlocks (lgOn 3) storeHi [] 2).length = 2 ∧
    (docBlocks (lgOn 3) storeHi [] 2).length = 2 ∧
    (∀ opts : TemplateOptions,
      (lookupTree (generateTemplate opts storeHi) ("index.html")).isSome = true) :=
  claim_C2 (lgOn 3) storeHi [] 2 1 (by decide) (by decide)

set_option maxRecDepth 8192 in
/-- C1 counterexample: for a one-page presentation job whose fragment content
is present, the unique page representation (the slide block) contains no
character 1 at all, so it is not labeled with its 1-based page number 1; in
the presentation variant the 1-based number appears only in the
missing-content placeholder and in the shared slide counter. -/
theorem claim_C1_counterexample :
    (presBlocks lgOff storeHi [] 1).length = 1 ∧
    countOccsS ("1") ((presBlocks lgOff storeHi [] 1).getD 0 ("")) = 0 := by decide

/-- C1 amended: every variant emits exactly pageCount page representations in
page order; the flipbook leaf and the documentation section and toc entry for
0-based position k are labeled with the 1-based number k+1; the presentation
slide carries only its 0-based index in its data-index attribute, the 1-based
number appearing only in the missing-content placeholder and the shared
counter. -/
theorem claim_C1 (lg : LeadGenConfig) (store : PageStore) (hs : List Hotspot)
    (n k : Nat) (hk : k < n) :
    (presBlocks lg store hs n).length = n ∧
    (flipBlocks lg store hs n).length = n ∧
    (docBlocks lg store hs n).length = n ∧
    (docTocItems store hs n).length = n ∧
    containsSub ((flipBlocks lg store hs n).getD k (""))
      ("<span class=\"page-number\">" ++ natStr (k + 1) ++ "</span>") ∧
    containsSub ((docBlocks lg store hs n).getD k (""))
      ("<span class=\"section-number\">" ++ natStr (k + 1) ++ "</span>") ∧
    containsSub ((docTocItems store hs n).getD k (""))
      ("Page " ++ natStr (k + 1)) ∧
    containsSub ((presBlocks lg store hs n).getD k (""))
      ("data-index=\"" ++ natStr k ++ "\"") := by
  refine ⟨by simp [presBlocks], by simp [flipBlocks], by simp [docBlocks],
    by simp [docTocItems], ?_, ?_, ?_, ?_⟩
  · simp only [flipBlocks]
    rw [getD_range_map _ _ hk]
    show containsSub
      (flipS0 ++ natStr k ++ flipS1 ++ natStr (n - k) ++ flipS2 ++ lockedBlurClass lg k
        ++ flipS3 ++ jsStrOr (buildPage store hs k).content (flipPlaceholder (k + 1))
        ++ flipS4 ++ natStr (k + 1) ++ flipS5
        ++ String.join ((buildPage store hs k).hotspots.map flipHotspotHtml)
        ++ flipS6 ++ natStr (k + 1) ++ flipS7)
      ("<span class=\"page-number\">" ++ natStr (k + 1) ++ "</span>")
    refine ⟨(flipS0 ++ natStr k ++ flipS1 ++ natStr (n - k) ++ flipS2
      ++ lockedBlurClass lg k ++ flipS3
      ++ jsStrOr (buildPage store hs k).content (flipPlaceholder (k + 1))
      ++ flipS4a).data,
      (flipS5b ++ String.join ((buildPage store hs k).hotspots.map flipHotspotHtml)
        ++ flipS6 ++ natStr (k + 1) ++ flipS7).data, ?_⟩
    simp only [String.data_append, List.append_assoc,
      show flipS4.data = flipS4a.data ++ ("<span class=\"page-number\">").data from
        by decide,
      show flipS5.data = ("</span>").data ++ flipS5b.data from by decide]
  · simp only [docBlocks]
    rw [getD_range_map _ _ hk]
    show containsSub
      (docS0 ++ lockedSectionClass lg k ++ docS1 ++ natStr k ++ docS2 ++ natStr (k + 1)
        ++ docS3 ++ natStr (k + 1) ++ docS4
        ++ jsStrOr (buildPage store hs k).content (docPlaceholder (k + 1))
        ++ docS5 ++ String.join ((buildPage store hs k).hotspots.map docHotspotHtml)
        ++ docS6 ++ docLockOverlayChunk lg k ++ docS7)
      ("<span class=\"section-number\">" ++ natStr (k + 1) ++ "</span>")
    refine ⟨(docS0 ++ lockedSectionClass lg k ++ docS1 ++ natStr k ++ docS2a).data,
      (docS3b ++ natStr (k + 1) ++ docS4
        ++ jsStrOr (buildPage store hs k).content (docPlaceholder (k + 1))
        ++ docS5 ++ String.join ((buildPage store hs k).hotspots.map docHotspotHtml)
        ++ docS6 ++ docLockOverlayChunk lg k ++ docS7).data, ?_⟩
    simp only [String.data_append, List.append_assoc,
      show docS2.data = docS2a.data ++ ("<span class=\"section-number\">").data from
        by decide,
      show docS3.data = ("</span>").data ++ docS3b.data from by decide]
  · simp only [docTocItems]
    rw [getD_range_map _ _ hk]
    show containsSub
      (docT0 ++ natStr k ++ docT1 ++ activeClass k ++ docT2 ++ natStr k ++ docT3
        ++ natStr (k + 1) ++ docT4)
      ("Page " ++ natStr (k + 1))
    refine ⟨(docT0 ++ natStr k ++ docT1 ++ activeClass k ++ docT2 ++ natStr k
      ++ docT3a).data, (docT4).data, ?_⟩
    simp only [String.data_append, List.append_assoc,
      show docT3.data = docT3a.data ++ ("Page ").data from by decide]
  · simp only [presBlocks]
    rw [getD_range_map _ _ hk]
    show containsSub
      (presS0 ++ activeClass k ++ presS1 ++ natStr k ++ presS2 ++ lockedBlurClass lg k
        ++ presS3 ++ jsStrOr (buildPage store hs k).content (presPlaceholder (k + 1))
        ++ presS4 ++ String.join ((buildPage store hs k).hotspots.map presHotspotHtml)
        ++ presS5)
      ("data-index=\"" ++ natStr k ++ "\"")
    refine ⟨(presS0 ++ activeClass k ++ presS1a).data,
      (presS2b ++ lockedBlurClass lg k ++ presS3
        ++ jsStrOr (buildPage store hs k).content (presPlaceholder (k + 1))
        ++ presS4 ++ String.join ((buildPage store hs k).hotspots.map presHotspotHtml)
        ++ presS5).data, ?_⟩
    simp only [String.data_append, List.append_assoc,
      show presS1.data = presS1a.data ++ ("data-index=\"").data from by decide,
      show presS2.data = ("\"").data ++ presS2b.data from by decide]

/-- C1 witness at a concrete two-page job. -/
theorem claim_C1_witness :
    (presBlocks lgOff storeHi [] 2).length = 2 ∧
    (flipBlocks lgOff storeHi [] 2).length = 2 ∧
    (docBlocks lgOff storeHi [] 2).length = 2 ∧
    (docTocItems storeHi [] 2).length = 2 ∧
    containsSub ((flipBlocks lgOff storeHi [] 2).getD 0 (""))
      ("<span class=\"page-number\">" ++ natStr 1 ++ "</span>") ∧
    containsSub ((docBlocks lgOff storeHi [] 2).getD 0 (""))
      ("<span class=\"section-number\">" ++ natStr 1 ++ "</span>") ∧
    containsSub ((docTocItems storeHi [] 2).getD 0 ("")) ("Page " ++ natStr 1) ∧
    containsSub ((presBlocks lgOff storeHi [] 2).getD 0 (""))
      ("data-index=\"" ++ natStr 0 ++ "\"") :=
  claim_C1 lgOff storeHi [] 2 0 (by decide)

set_option maxRecDepth 16384 in
/-- C3: the gate overlays are emitted exactly when leadGen.enabled, with
exactly one lead-gate form inside the emitted chunk for every page count;
with the gate enabled, the locked class and the documentation lock overlay
mark exactly the pages with 0-based index at least freePages; with the gate
disabled no lock class, lock overlay or gate form is emitted. -/
theorem claim_C3 (lg : LeadGenConfig) (n idx : Nat) :
    (lg.enabled = false →
      presGateChunk lg n = "" ∧ flipGateChunk lg = "" ∧ docGateChunk lg = "" ∧
      lockedBlurClass lg idx = "" ∧ lockedSectionClass lg idx = "" ∧
      docLockOverlayChunk lg idx = "") ∧
    (lg.enabled = true →
      lockedBlurClass lg idx =
        (if lg.freePages ≤ (idx : Int) then " locked-blur" else "") ∧
      lockedSectionClass lg idx =
        (if lg.freePages ≤ (idx : Int) then " locked-section" else "") ∧
      docLockOverlayChunk lg idx =
        (if lg.freePages ≤ (idx : Int) then docL0 else "")) ∧
    countOccsS formMarker (presGateChunk lg n) = (if lg.enabled = true then 1 else 0) ∧
    countOccsS formMarker (flipGateChunk lg) = (if lg.enabled = true then 1 else 0) ∧
    countOccsS formMarker (docGateChunk lg) = (if lg.enabled = true then 1 else 0) := by
  refine ⟨?_, ?_, ?_, ?_, ?_⟩
  · intro h
    simp [presGateChunk, flipGateChunk, docGateChunk, lockedBlurClass,
      lockedSectionClass, docLockOverlayChunk, h]
  · intro h
    simp [lockedBlurClass, lockedSectionClass, docLockOverlayChunk, h]
  · cases henb : lg.enabled with
    | false => simp [presGateChunk, countOccsS, countOccs, henb]
    | true =>
      have hchunk : presGateChunk lg n = presG0 ++ natStr n ++ presG1 := by
        simp [presGateChunk, henb]
      rw [hchunk, if_pos rfl]
      unfold countOccsS
      have hd : (presG0 ++ natStr n ++ presG1).data =
          presG0.data ++ (natStr n).data ++ presG1.data := by
        simp [String.data_append]
      rw [hd, countOccs_sep formMarker.data (by decide) presG0.data ((natStr n).data)
        presG1.data (natDigits_ne_nil n) (natDigits_digits n) (by decide)]
      decide
  · cases henb : lg.enabled with
    | false => simp [flipGateChunk, countOccsS, countOccs, henb]
    | true =>
      have hchunk : flipGateChunk lg = flipG0 := by simp [flipGateChunk, henb]
      rw [hchunk, if_pos rfl]
      decide
  · cases henb : lg.enabled with
    | false => simp [docGateChunk, countOccsS, countOccs, henb]
    | true =>
      have hchunk : docGateChunk lg = docG0 := by simp [docGateChunk, henb]
      rw [hchunk, if_pos rfl]
      decide

/-- C3 witness at the spec example: freePages 3 and ten pages, and the
disabled gate. -/
theorem claim_C3_witness :
    lockedBlurClass (lgOn 3) 2 = "" ∧
    lockedBlurClass (lgOn 3) 3 = " locked-blur" ∧
    lockedBlurClass (lgOn 3) 9 = " locked-blur" ∧
    presGateChunk lgOff 10 = "" ∧
    countOccsS formMarker (presGateChunk (lgOn 3) 10) = 1 := by
  have h2 := (claim_C3 (lgOn 3) 10 2).2.1 rfl
  have h3 := (claim_C3 (lgOn 3) 10 3).2.1 rfl
  have h9 := (claim_C3 (lgOn 3) 10 9).2.1 rfl
  have h0 := (claim_C3 lgOff 10 0).1 rfl
  have hc := (claim_C3 (lgOn 3) 10 0).2.2.1
  refine ⟨?_, ?_, ?_, h0.1, ?_⟩
  · rw [h2.1]; decide
  · rw [h3.1]; decide
  · rw [h9.1]; decide
  · rw [hc]; decide

/-- C4: the chained replacements of escapeHtml act as the character table
mapping the five special characters to their entities; escaped output never
contains a raw angle bracket, double quote or apostrophe; each template
depends on the title only through its escaped form, so every title
interpolation is escaped, and likewise the hotspot anchor escapes its url and
its title text; an absent hotspot label falls back to the url. -/
theorem claim_C4 :
    (∀ (c : Char) (s : List Char),
      escapeHtmlData (c :: s) = escChar c ++ escapeHtmlData s) ∧
    (escChar ampC = ("&amp;".data) ∧ escChar ltC = ("&lt;".data) ∧
      escChar gtC = ("&gt;".data) ∧ escChar quotC = ("&quot;".data) ∧
      escChar aposC = ("&#039;".data)) ∧
    (∀ (s : String) (c : Char), c ∈ (escapeHtml s).data →
      c ≠ ltC ∧ c ≠ gtC ∧ c ≠ quotC ∧ c ≠ aposC) ∧
    (∀ (opts : TemplateOptions) (store : PageStore) (t1 t2 : String),
      escapeHtml t1 = escapeHtml t2 →
        presIndexHtml { opts with title := t1 } store =
          presIndexHtml { opts with title := t2 } store ∧
        flipIndexHtml { opts with title := t1 } store =
          flipIndexHtml { opts with title := t2 } store ∧
        docIndexHtml { opts with title := t1 } store =
          docIndexHtml { opts with title := t2 } store) ∧
    (∀ h : Hotspot, h.label = none →
      presHotspotHtml h = presHotspotHtml { h with label := some h.url }) := by
  refine ⟨?_, ⟨by decide, by decide, by decide, by decide, by decide⟩, ?_, ?_, ?_⟩
  · intro c s
    exact escapeHtmlData_cons c s
  · intro s c hc
    exact escapeHtml_no_specials s.data c hc
  · intro opts store t1 t2 hEq
    refine ⟨?_, ?_, ?_⟩ <;>
      simp [presIndexHtml, flipIndexHtml, docIndexHtml, hEq]
  · intro h hlab
    unfold presHotspotHtml
    rw [hlab]
    by_cases hu : h.url = "" <;> simp [jsStrOr, hu]

/-- C4 witness at a concrete escaped character and a label-free hotspot. -/
theorem claim_C4_witness :
    ((Char.ofNat 98) ≠ ltC ∧ (Char.ofNat 98) ≠ gtC ∧ (Char.ofNat 98) ≠ quotC ∧
      (Char.ofNat 98) ≠ aposC) ∧
    presHotspotHtml demoHotspot =
      presHotspotHtml { demoHotspot with label := some demoHotspot.url } :=
  ⟨claim_C4.2.2.1 ("<b>") (Char.ofNat 98) (by decide),
   claim_C4.2.2.2.2 demoHotspot rfl⟩

/-- C10: the generated runtime scripts are functions of the lead-gate
configuration alone, identical across jobs, titles and template names; each
of the three scripts reads and writes the viewer unlock state under the one
fixed localStorage key named unlocked; and submitting the gate form on any
generated site makes the shared per-origin unlock state read as unlocked,
for every generated site alike. -/
theorem claim_C10 (opts1 opts2 : TemplateOptions) (lg : LeadGenConfig)
    (ls : LocalStorage) :
    (opts1.leadGen = opts2.leadGen →
      navigationJs opts1.leadGen = navigationJs opts2.leadGen ∧
      flipbookJs opts1.leadGen = flipbookJs opts2.leadGen ∧
      documentationJs opts1.leadGen = documentationJs opts2.leadGen) ∧
    containsSub (navigationJs lg) lsGetUnlocked ∧
    containsSub (navigationJs lg) lsSetUnlocked ∧
    containsSub (flipbookJs lg) lsGetUnlocked ∧
    containsSub (flipbookJs lg) lsSetUnlocked ∧
    containsSub (documentationJs lg) lsGetUnlocked ∧
    containsSub (documentationJs lg) lsSetUnlocked ∧
    readUnlocked (submitGate ls) = true := by
  refine ⟨fun h => by rw [h]; exact ⟨rfl, rfl, rfl⟩, ?_, ?_, ?_, ?_, ?_, ?_, ?_⟩
  · refine ⟨(navJ0 ++ jsBool lg.enabled ++ navJ1 ++ intStr lg.freePages
      ++ navJ2).data,
      (navJ3 ++ lsSetUnlocked ++ navJ4 ++ navWebhookChunk lg ++ navJ5).data, ?_⟩
    simp only [navigationJs, String.data_append, List.append_assoc]
  · refine ⟨(navJ0 ++ jsBool lg.enabled ++ navJ1 ++ intStr lg.freePages ++ navJ2
      ++ lsGetUnlocked ++ navJ3).data,
      (navJ4 ++ navWebhookChunk lg ++ navJ5).data, ?_⟩
    simp only [navigationJs, String.data_append, List.append_assoc]
  · refine ⟨(flipJ0 ++ jsBool lg.enabled ++ flipJ1 ++ intStr lg.freePages
      ++ flipJ2).data, (flipJ3 ++ lsSetUnlocked ++ flipJ4).data, ?_⟩
    simp only [flipbookJs, String.data_append, List.append_assoc]
  · refine ⟨(flipJ0 ++ jsBool lg.enabled ++ flipJ1 ++ intStr lg.freePages ++ flipJ2
      ++ lsGetUnlocked ++ flipJ3).data, (flipJ4).data, ?_⟩
    simp only [flipbookJs, String.data_append, List.append_assoc]
  · refine ⟨(docJ0 ++ jsBool lg.enabled ++ docJ1).data,
      (docJ2 ++ lsSetUnlocked ++ docJ3).data, ?_⟩
    simp only [documentationJs, String.data_append, List.append_assoc]
  · refine ⟨(docJ0 ++ jsBool lg.enabled ++ docJ1 ++ lsGetUnlocked ++ docJ2).data,
      (docJ3).data, ?_⟩
    simp only [documentationJs, String.data_append, List.append_assoc]
  · simp [readUnlocked, submitGate]

/-- C10 witness: two jobs differing in template and page count share the
byte-identical navigation script, and a gate submission unlocks the shared
state. -/
theorem claim_C10_witness :
    navigationJs (demoOpts ("presentation") 1 lgOff).leadGen =
      navigationJs (demoOpts ("flipbook") 2 lgOff).leadGen ∧
    readUnlocked (submitGate (fun _ => none)) = true :=
  ⟨((claim_C10 (demoOpts ("presentation") 1 lgOff) (demoOpts ("flipbook") 2 lgOff)
      lgOff (fun _ => none)).1 rfl).1,
   (claim_C10 (demoOpts ("presentation") 1 lgOff) (demoOpts ("flipbook") 2 lgOff)
      lgOff (fun _ => none)).2.2.2.2.2.2.2⟩

end PdfPresentation
